import Mathlib

/-!
Verification of the interview-gap-matcher repository's core logic.

The Python sources (`src/matcher.py`, `src/onboarding_digest.py`,
`src/config.py`) are shallowly embedded below: pure helper functions become
Lean functions over `String`/`List`, the stateful notification and pipeline
loops become explicit state-passing functions, and external I/O (Slack posts,
Notion patches, SMTP) is recorded as values of an explicit `Effect` type.
Python's `str.strip`, `str.lower`, `str.upper`, `str.capitalize` are embedded
over the character list of a string (the data handled by the scripts is
ASCII); `datetime.strptime` is embedded for exactly the four date formats the
code passes to it.
-/

namespace GapMatcher

/-! ## Definitions

### Python string primitives -/

/-- The whitespace characters Python's `str.strip()` removes (ASCII range,
which is all the sheet data contains): space, tab, newline, carriage return,
vertical tab, form feed. -/
def pyWhitespace (c : Char) : Bool :=
  c.toNat = 32 || c.toNat = 9 || c.toNat = 10 || c.toNat = 13 || c.toNat = 11 || c.toNat = 12

/-- Python `str.lower()` on one character (ASCII letters). -/
def pyLowerChar (c : Char) : Char :=
  if 65 ≤ c.toNat ∧ c.toNat ≤ 90 then Char.ofNat (c.toNat + 32) else c

/-- Python `str.upper()` on one character (ASCII letters). -/
def pyUpperChar (c : Char) : Char :=
  if 97 ≤ c.toNat ∧ c.toNat ≤ 122 then Char.ofNat (c.toNat - 32) else c

/-- Strip leading and trailing whitespace from a character list
(Python `str.strip()`). -/
def stripChars (l : List Char) : List Char :=
  ((l.dropWhile pyWhitespace).reverse.dropWhile pyWhitespace).reverse

/-- Python `s.strip()`. -/
def pyStrip (s : String) : String := ⟨stripChars s.data⟩

/-- Python `s.lower()`. -/
def pyLower (s : String) : String := ⟨s.data.map pyLowerChar⟩

/-- Python `s.upper()`. -/
def pyUpper (s : String) : String := ⟨s.data.map pyUpperChar⟩

/-- Python `s.capitalize()`: first character upper-cased, the rest
lower-cased. -/
def pyCapitalize (s : String) : String :=
  match s.data with
  | [] => ""
  | c :: rest => ⟨pyUpperChar c :: rest.map pyLowerChar⟩

/-! ### `normalize_location` and its alias table (`config.py`) -/

/-- `config.LOCATION_ALIASES` from `src/config.py`, in source order.  The
Python dict literal repeats the key `"los angeles"` with the same value
`"la"`; both occurrences are kept here (first-match lookup below agrees with
Python's dict, whose later duplicate assignment overwrote the earlier one with
an identical value). -/
def LOCATION_ALIASES : List (String × String) := [
  ("san francisco", "sf"),
  ("san francisco ca", "sf"),
  ("sf/oakland (califronia)", "sf"),
  ("sf/menlo park", "sf"),
  ("sf-bayview", "sf"),
  ("los angeles", "la"),
  ("la/east la", "la"),
  ("la/long beach", "la"),
  ("la/oc", "la"),
  ("la/westwood/brentwood", "la"),
  ("la/inglewood/calabasas", "la"),
  ("new york", "manhattan"),
  ("new york city ny", "manhattan"),
  ("new york ny", "manhattan"),
  ("nyc", "manhattan"),
  ("nyc area", "manhattan"),
  ("minnesota/minneapolis", "minnesota"),
  ("minneapolis", "minnesota"),
  ("twin cities", "minnesota"),
  ("san jose ca", "san jose"),
  ("san jose california", "san jose"),
  ("san diego", "san diego"),
  ("san deigo", "san diego"),
  ("denver", "colorado"),
  ("denver co", "colorado"),
  ("denver colorado", "colorado"),
  ("metro area denver", "colorado"),
  ("evanston illinois", "chicago"),
  ("rogers park chicago", "chicago"),
  ("downtown chicago", "chicago"),
  ("naperville", "chicago"),
  ("marin", "marin county"),
  ("los angeles, pasadena", "la"),
  ("los angeles", "la"),
  ("brooklyn", "brooklyn"),
  ("brooklyn, manhattan", "manhattan"),
  ("brooklyn, queens", "brooklyn"),
  ("brooklyn, queens, manhattan", "manhattan"),
  ("brooklyn, queens, the bronx, manhattan", "manhattan"),
  ("brooklyn, the bronx, manhattan", "manhattan"),
  ("brooklyn, staten island", "brooklyn"),
  ("dc/ maryland", "dc/maryland"),
  ("dc/maryland", "dc/maryland"),
  ("denver, boulder", "colorado"),
  ("denver, boulder, colorado", "colorado"),
  ("austin", "austin"),
  ("seaside ca", "sf"),
  ("san jose", "san jose"),
  ("virginia, dc/ maryland", "dc/maryland"),
  ("detroit, mi", "detroit"),
  ("chicago, il", "chicago"),
  ("chicago, illinois", "chicago"),
  ("boston", "boston")]

/-- `LOCATION_ALIASES.get(key, key)` in `normalize_location`. -/
def aliasLookup (key : String) : Option String :=
  (LOCATION_ALIASES.find? (fun p => p.1 = key)).map (fun p => p.2)

/-- `matcher.normalize_location`: lowercase, trim, then look up the static
alias table, falling back to the lowercased input itself. -/
def normalize_location (loc : String) : String :=
  let key := pyLower (pyStrip loc)
  (aliasLookup key).getD key

/-! ### `_parse_date`: the four `datetime.strptime` formats of `matcher.py` -/

/-- A calendar date as compared by Python's `datetime.date`. -/
structure PDate where
  year : Nat
  month : Nat
  day : Nat
  deriving DecidableEq

/-- Python `date` comparison (lexicographic on year, month, day). -/
def dateLt (a b : PDate) : Bool :=
  if a.year ≠ b.year then a.year < b.year
  else if a.month ≠ b.month then a.month < b.month
  else a.day < b.day

def leapYear (y : Nat) : Bool := y % 4 = 0 ∧ (y % 100 ≠ 0 ∨ y % 400 = 0)

def daysInMonth (y m : Nat) : Nat :=
  if m = 2 then (if leapYear y then 29 else 28)
  else if m = 4 ∨ m = 6 ∨ m = 9 ∨ m = 11 then 30
  else 31

/-- `datetime.date(y, m, d)` construction: validates the day against the
month length and the year range, raising (here: `none`) otherwise. -/
def mkDate (y m d : Nat) : Option PDate :=
  if 1 ≤ y ∧ y ≤ 9999 ∧ 1 ≤ d ∧ d ≤ daysInMonth y m then some ⟨y, m, d⟩ else none

def digitVal (c : Char) : Nat := c.toNat - 48

/-- `strptime`'s `%d`/`%m` directive: one or two digits, two-digit reads are
maximal-munch (the following format character is never a digit, so this
agrees with the regex alternation `(3[01]|[12]\d|0[1-9]|[1-9])`), value
bounded by `1..maxTwo`. -/
def parseNum2 (maxTwo : Nat) : List Char → Option (Nat × List Char)
  | [] => none
  | [c] =>
    if c.isDigit ∧ 1 ≤ digitVal c then some (digitVal c, []) else none
  | c1 :: c2 :: rest =>
    if c1.isDigit then
      if c2.isDigit then
        let n := digitVal c1 * 10 + digitVal c2
        if 1 ≤ n ∧ n ≤ maxTwo then some (n, rest) else none
      else if 1 ≤ digitVal c1 then some (digitVal c1, c2 :: rest) else none
    else none

/-- `strptime`'s `%Y`: exactly four digits. -/
def parseYear4 : List Char → Option (Nat × List Char)
  | c1 :: c2 :: c3 :: c4 :: rest =>
    if c1.isDigit ∧ c2.isDigit ∧ c3.isDigit ∧ c4.isDigit then
      some (digitVal c1 * 1000 + digitVal c2 * 100 + digitVal c3 * 10 + digitVal c4, rest)
    else none
  | _ => none

/-- `strptime`'s `%y`: exactly two digits; values `0..68` map into the
2000s, `69..99` into the 1900s. -/
def parseYear2 : List Char → Option (Nat × List Char)
  | c1 :: c2 :: rest =>
    if c1.isDigit ∧ c2.isDigit then
      let n := digitVal c1 * 10 + digitVal c2
      some (if n ≤ 68 then 2000 + n else 1900 + n, rest)
    else none
  | _ => none

/-- Literal whitespace in a `strptime` format matches one or more whitespace
characters. -/
def skipWs1 : List Char → Option (List Char)
  | c :: rest => if pyWhitespace c then some (rest.dropWhile pyWhitespace) else none
  | [] => none

def expectChar (ch : Char) : List Char → Option (List Char)
  | c :: rest => if c = ch then some rest else none
  | [] => none

/-- Case-insensitive (lower-cased pattern) prefix match, as `strptime`
matches month names under `re.IGNORECASE`. -/
def matchCI : List Char → List Char → Option (List Char)
  | [], cs => some cs
  | _ :: _, [] => none
  | p :: ps, c :: cs => if pyLowerChar c = p then matchCI ps cs else none

def monthNamesFull : List String :=
  ["january", "february", "march", "april", "may", "june",
   "july", "august", "september", "october", "november", "december"]

def monthNamesAbbr : List String :=
  ["jan", "feb", "mar", "apr", "may", "jun", "jul", "aug", "sep", "oct", "nov", "dec"]

/-- `%B`/`%b`: first month name of the list matching as a prefix wins (no
name in either list is a prefix of another, so this equals the regex
alternation). -/
def matchMonthAux : List String → Nat → List Char → Option (Nat × List Char)
  | [], _, _ => none
  | n :: rest, i, cs =>
    match matchCI n.data cs with
    | some cs2 => some (i, cs2)
    | none => matchMonthAux rest (i + 1) cs

def matchMonth (names : List String) (cs : List Char) : Option (Nat × List Char) :=
  matchMonthAux names 1 cs

/-- `"%B %d, %Y"` / `"%b %d, %Y"` (the month-name list decides which). -/
def fmtMonthName (names : List String) (cs : List Char) : Option PDate := do
  let (m, cs) ← matchMonth names cs
  let cs ← skipWs1 cs
  let (d, cs) ← parseNum2 31 cs
  let cs ← expectChar ',' cs
  let cs ← skipWs1 cs
  let (y, cs) ← parseYear4 cs
  if cs = [] then mkDate y m d else none

/-- `"%m/%d/%Y"` (`year2 = false`) or `"%m/%d/%y"` (`year2 = true`). -/
def fmtSlash (year2 : Bool) (cs : List Char) : Option PDate := do
  let (m, cs) ← parseNum2 12 cs
  let cs ← expectChar '/' cs
  let (d, cs) ← parseNum2 31 cs
  let cs ← expectChar '/' cs
  let (y, cs) ← if year2 then parseYear2 cs else parseYear4 cs
  if cs = [] then mkDate y m d else none

/-- `matcher._parse_date`: strip, return `None` on empty, then try the four
formats `"%B %d, %Y"`, `"%b %d, %Y"`, `"%m/%d/%Y"`, `"%m/%d/%y"` in order;
the first that parses wins; if all fail return `None`. -/
def _parse_date (s : String) : Option PDate :=
  let t := pyStrip s
  if t = "" then none
  else
    match fmtMonthName monthNamesFull t.data with
    | some d => some d
    | none =>
      match fmtMonthName monthNamesAbbr t.data with
      | some d => some d
      | none =>
        match fmtSlash false t.data with
        | some d => some d
        | none => fmtSlash true t.data

/-! ### `get_gap_workshops`: the gap classifier, one spreadsheet row -/

/-- One data row of the Ops Hub sheet, restricted to the columns
`get_gap_workshops` reads, together with the classification of its three
leader cells (`fmt_map.get(idx, ["normal"]*3)` — the classes computed by
`_classify_leader_cell` from the cell formatting, defaulting to `"normal"`). -/
structure SheetRow where
  setup : String
  endDate : String
  region : String
  site : String
  lesson : String
  leader1 : String
  leader2 : String
  leader3 : String
  cls1 : String
  cls2 : String
  cls3 : String
  day : String
  startTime : String
  endTime : String
  startDate : String
  district : String
  zone : String
  enrollment : String
  level : String
  deriving DecidableEq

/-- A gap record as appended to `gaps` by `get_gap_workshops` (the
`maps_link` field is the Google-Maps URL built from `site` and `region`;
the URL quoting is kept as the raw query string here). -/
structure Gap where
  region : String
  site : String
  lesson : String
  day : String
  time : String
  startDate : String
  endDate : String
  gapType : String
  tentativeNames : List String
  workshopKey : String
  district : String
  zone : String
  enrollment : String
  level : String
  mapsQuery : String
  deriving DecidableEq

/-- The classes of `GAP_CLASSES`/`SKIP_CLASSES` partition used by the loop:
a leader cell counts toward a gap only when its class is `red`, `scoot` or
`strikethrough`. -/
def SKIP_CLASSES : List String := ["gray", "yellow", "green", "purple", "orange", "normal"]

/-- The `"CANCEL" in setup` test on the upper-cased stripped Setup cell. -/
def setupCancelled (setup : String) : Bool :=
  decide ("CANCEL".data.IsInfix (pyUpper (pyStrip setup)).data)

/-- The date filter of `get_gap_workshops`: a row is dropped iff its end
date parses and is strictly before today. -/
def rowExpired (today : PDate) (row : SheetRow) : Bool :=
  match _parse_date row.endDate with
  | some d => dateLt d today
  | none => false

/-- `leaders = [leader1, leader2, leader3]` zipped with `cell_classes`. -/
def rowLeaders (row : SheetRow) : List (String × String) :=
  [(pyStrip row.leader1, row.cls1), (pyStrip row.leader2, row.cls2),
   (pyStrip row.leader3, row.cls3)]

/-- `non_gray_leaders`: filled leader cells whose class is not gray. -/
def rowNonGray (row : SheetRow) : List (String × String) :=
  (rowLeaders row).filter (fun lc => lc.1 ≠ "" ∧ lc.2 ≠ "gray")

/-- `gray_count`: number of filled leader cells classified gray. -/
def rowGrayCount (row : SheetRow) : Nat :=
  ((rowLeaders row).filter (fun lc => lc.1 ≠ "" ∧ lc.2 = "gray")).length

/-- `all_empty`: every leader cell is empty or classified gray. -/
def rowAllEmpty (row : SheetRow) : Bool :=
  (rowLeaders row).all (fun lc => lc.1 = "" ∨ lc.2 = "gray")

/-- `gap_names["backout"]`: names in filled cells classified red or
strikethrough (cells whose class is in `SKIP_CLASSES` are skipped first,
exactly as the loop's `continue`). -/
def rowBackout (row : SheetRow) : List String :=
  ((rowLeaders row).filter
    (fun lc => lc.1 ≠ "" ∧ ¬ lc.2 ∈ SKIP_CLASSES ∧
      (lc.2 = "red" ∨ lc.2 = "strikethrough"))).map (fun lc => lc.1)

/-- `gap_names["3rd_party"]`: names in filled cells classified scoot. -/
def rowThirdParty (row : SheetRow) : List String :=
  ((rowLeaders row).filter
    (fun lc => lc.1 ≠ "" ∧ ¬ lc.2 ∈ SKIP_CLASSES ∧ ¬ (lc.2 = "red" ∨ lc.2 = "strikethrough") ∧
      lc.2 = "scoot")).map (fun lc => lc.1)

/-- The gap-type label assigned at the end of the loop body. -/
def rowGapType (row : SheetRow) : String :=
  if rowAllEmpty row then "OPEN (no leaders)"
  else if ¬ rowBackout row = [] then "BACKOUT"
  else if ¬ rowThirdParty row = [] then "3RD PARTY (Scoot)"
  else "OPEN (no leaders)"

/-- `f"{start_time}-{end_time}" if start_time and end_time else start_time
or end_time`. -/
def rowTimeStr (row : SheetRow) : String :=
  let startTime := pyStrip row.startTime
  let endTime := pyStrip row.endTime
  if startTime ≠ "" ∧ endTime ≠ "" then startTime ++ "-" ++ endTime
  else if startTime ≠ "" then startTime else endTime

/-- The gap record appended for a non-skipped row. -/
def rowGap (row : SheetRow) : Gap :=
  let region := pyStrip row.region
  let site := pyStrip row.site
  let lesson := pyStrip row.lesson
  { region := region
    site := site
    lesson := if lesson = "" then "(unnamed)" else lesson
    day := pyStrip row.day
    time := rowTimeStr row
    startDate := pyStrip row.startDate
    endDate := row.endDate
    gapType := rowGapType row
    tentativeNames := rowBackout row ++ rowThirdParty row
    workshopKey := region ++ "|" ++ site ++ "|" ++ lesson ++ "|" ++ pyStrip row.day ++ "|" ++
      rowTimeStr row
    district := pyStrip row.district
    zone := pyStrip row.zone
    enrollment := pyStrip row.enrollment
    level := pyStrip row.level
    mapsQuery := pyStrip (site ++ " " ++ region) }

/-- The loop body of `get_gap_workshops` for a single record: returns the
gap appended for this row, or `none` when the row is skipped (cancelled
Setup, expired end date, no region and site, all filled leaders gray, or
neither all-empty nor any red/scoot/strikethrough cell). -/
def processRow (today : PDate) (row : SheetRow) : Option Gap :=
  if setupCancelled row.setup then none
  else if rowExpired today row then none
  else if pyStrip row.region = "" ∧ pyStrip row.site = "" then none
  else if rowGrayCount row > 0 ∧ rowNonGray row = [] then none
  else if ¬ rowAllEmpty row ∧ ¬ (¬ rowBackout row = [] ∨ ¬ rowThirdParty row = []) then none
  else some (rowGap row)

/-- `get_gap_workshops`, data part: the gaps of all data rows in order. -/
def get_gap_workshops (today : PDate) (rows : List SheetRow) : List Gap :=
  rows.filterMap (processRow today)

/-- A concrete sheet row whose only filled leader cell is gray. -/
def rowAllGray : SheetRow :=
  { setup := "Confirmed", endDate := "November 3, 2025", region := "SF",
    site := "Sunrise Elementary", lesson := "Robotics", leader1 := "Alice Jones",
    leader2 := "", leader3 := "", cls1 := "gray", cls2 := "normal", cls3 := "normal",
    day := "Monday", startTime := "2:30", endTime := "3:30",
    startDate := "September 8, 2025", district := "", zone := "", enrollment := "",
    level := "" }

/-- A concrete sheet row with one red and one scoot leader cell. -/
def rowBackoutScoot : SheetRow :=
  { setup := "Done", endDate := "November 3, 2025", region := "LA",
    site := "Hillcrest", lesson := "Coding", leader1 := "Bob Lee",
    leader2 := "Cara Diaz", leader3 := "", cls1 := "red", cls2 := "scoot",
    cls3 := "normal", day := "Tuesday", startTime := "3:00", endTime := "4:00",
    startDate := "September 9, 2025", district := "", zone := "", enrollment := "",
    level := "" }

/-- A concrete sheet row whose end date matches none of the four formats. -/
def rowUnparseable : SheetRow :=
  { setup := "", endDate := "TBD", region := "SF", site := "Lakeview",
    lesson := "", leader1 := "", leader2 := "", leader3 := "", cls1 := "normal",
    cls2 := "normal", cls3 := "normal", day := "Friday", startTime := "",
    endTime := "", startDate := "", district := "", zone := "", enrollment := "",
    level := "" }

/-! ### `find_matches`: candidates, region index, day filter, dedup -/

/-- A candidate as assembled by `get_matchable_candidates` (Notion) or
`get_form_candidates` (form sheet).  Notion candidates carry no
`available_days` key; that is the empty list here. -/
structure Candidate where
  id : String
  name : String
  status : String
  locations : List String
  email : String
  availableDays : List String
  source : String
  sourceDate : String
  deriving DecidableEq

/-- The `region_index` dict built at the top of `find_matches`:
`region_index.setdefault(key, []).append(ws)` for each workshop whose
normalised region key is non-empty. -/
def buildRegionIndex (workshops : List Gap) : String → List Gap :=
  workshops.foldl
    (fun idx ws =>
      if normalize_location ws.region = "" then idx
      else fun k => if k = normalize_location ws.region then idx k ++ [ws] else idx k)
    (fun _ => [])

/-- `matched_ws`: union of index lookups over the candidate's locations. -/
def regionMatched (idx : String → List Gap) (c : Candidate) : List Gap :=
  (c.locations.map (fun loc => idx (normalize_location loc))).flatten

/-- `day_filtered`: workshops whose capitalised day is among the
candidate's available days. -/
def dayFiltered (c : Candidate) (l : List Gap) : List Gap :=
  l.filter (fun ws => pyCapitalize (pyStrip ws.day) ∈ c.availableDays)

/-- The `seen`-set dedup loop of `find_matches`: keep the first workshop
for each `workshop_key`. -/
def dedupByKey : List Gap → List String → List Gap
  | [], _ => []
  | ws :: rest, seen =>
    if ws.workshopKey ∈ seen then dedupByKey rest seen
    else ws :: dedupByKey rest (ws.workshopKey :: seen)

/-- The per-candidate body of `find_matches`: region-matched workshops,
day-filtered for form candidates with declared days unless that would leave
none, deduplicated by workshop key; `none` when no workshop remains (the
candidate is not appended to `matches`). -/
def matchOne (idx : String → List Gap) (c : Candidate) : Option (Candidate × List Gap) :=
  let matched :=
    if c.availableDays ≠ [] ∧ c.source = "form" then
      (if dayFiltered c (regionMatched idx c) ≠ [] then dayFiltered c (regionMatched idx c)
       else regionMatched idx c)
    else regionMatched idx c
  if dedupByKey matched [] = [] then none else some (c, dedupByKey matched [])

/-- `find_matches`. -/
def find_matches (candidates : List Candidate) (workshops : List Gap) :
    List (Candidate × List Gap) :=
  candidates.filterMap (matchOne (buildRegionIndex workshops))

/-- A concrete Monday gap in region SF. -/
def gapMon : Gap :=
  { region := "SF", site := "Sunrise Elementary", lesson := "Robotics", day := "Monday",
    time := "2:30-3:30", startDate := "", endDate := "", gapType := "OPEN (no leaders)",
    tentativeNames := [], workshopKey := "SF|Sunrise Elementary|Robotics|Monday|2:30-3:30",
    district := "", zone := "", enrollment := "", level := "", mapsQuery := "Sunrise Elementary SF" }

/-- A concrete Tuesday gap in region SF. -/
def gapTue : Gap :=
  { region := "SF", site := "Lakeview", lesson := "Coding", day := "Tuesday",
    time := "3:00-4:00", startDate := "", endDate := "", gapType := "BACKOUT",
    tentativeNames := ["Bob Lee"], workshopKey := "SF|Lakeview|Coding|Tuesday|3:00-4:00",
    district := "", zone := "", enrollment := "", level := "", mapsQuery := "Lakeview SF" }

/-- A concrete form candidate available Mondays in San Francisco. -/
def candForm : Candidate :=
  { id := "form::ada@example.com", name := "Ada Lovelace", status := "Form Applicant",
    locations := ["San Francisco"], email := "ada@example.com",
    availableDays := ["Monday"], source := "form", sourceDate := "" }

/-! ### The notification dedup loop of `matcher.main` -/

/-- `notified_key`. -/
def notified_key (candidate_id workshop_id : String) : String :=
  candidate_id ++ "::" ++ workshop_id

/-- The notified-state JSON object, as a key/value list in insertion
order; `dictLookup` is `dict.get`/`in`, `dictSet` is item assignment. -/
def dictLookup : List (String × String) → String → Option String
  | [], _ => none
  | (k2, v2) :: rest, k => if k2 = k then some v2 else dictLookup rest k

def dictSet : List (String × String) → String → String → List (String × String)
  | [], k, v => [(k, v)]
  | (k2, v2) :: rest, k, v =>
    if k2 = k then (k, v) :: rest else (k2, v2) :: dictSet rest k v

/-- One Slack message posted by the loop (or printed in dry-run): the
candidate it is for and the workshop keys of the unseen gaps it lists. -/
structure SentMsg where
  candidateId : String
  workshopKeys : List String
  deriving DecidableEq

/-- `for ws in unseen: notified[notified_key(...)] = now`. -/
def writeKeys (cid v : String) : List Gap → List (String × String) → List (String × String)
  | [], m => m
  | ws :: rest, m => writeKeys cid v rest (dictSet m (notified_key cid ws.workshopKey) v)

/-- The dedup-and-notify loop of `matcher.main` (lines 714-746): for each
matched candidate, the gaps whose `(candidate_id, workshop_key)` key is not
yet in the notified map are collected; if none remain the candidate is
skipped; otherwise one message is sent, every unseen key is written with
the current UTC timestamp (`clock` supplies the timestamp taken at the
i-th sending iteration), and the notification counter increments. -/
def notifyLoop (clock : Nat → String) :
    List (Candidate × List Gap) → List (String × String) → Nat →
    List (String × String) × List SentMsg × Nat
  | [], notified, n => (notified, [], n)
  | (c, gaps) :: rest, notified, n =>
    let unseen := gaps.filter
      (fun ws => dictLookup notified (notified_key c.id ws.workshopKey) = none)
    if unseen = [] then notifyLoop clock rest notified n
    else
      let notified2 := writeKeys c.id (clock n) unseen notified
      let r := notifyLoop clock rest notified2 (n + 1)
      (r.1, ⟨c.id, unseen.map (fun ws => ws.workshopKey)⟩ :: r.2.1, r.2.2)

def clockW : Nat → String := fun _ => "2026-01-01T00:00:00+00:00"

def notifiedW : List (String × String) :=
  [(notified_key "form::ada@example.com" "SF|Sunrise Elementary|Robotics|Monday|2:30-3:30",
    "2025-11-03T00:00:00+00:00")]

/-! ### Onboarding pipeline (`onboarding_digest.py`): data model -/

/-- A Notion page property, restricted to the shapes `_get_property_value`,
`_get_leader_name` and `_get_leader_email` read. -/
inductive NProp where
  | select (name : Option String)
  | status (name : Option String)
  | date (start : Option String)
  | title (parts : List String)
  | email (addr : Option String)
  | richText (parts : List String)
  deriving DecidableEq

/-- A Notion page: its id and its properties map (association list in page
order, as `page["properties"]` iterates). -/
structure Page where
  id : String
  properties : List (String × NProp)
  deriving DecidableEq

/-- `props.get(prop_name, {})` — first binding wins, as in a JSON object
with unique keys. -/
def getProp (page : Page) (name : String) : Option NProp :=
  (page.properties.find? (fun p => p.1 = name)).map (fun p => p.2)

/-- `_get_property_value`: the display value of a select/status/date/title
property; every other shape (including a missing property) yields `""`. -/
def _get_property_value (page : Page) (propName : String) : String :=
  match getProp page propName with
  | some (.select v) => v.getD ""
  | some (.status v) => v.getD ""
  | some (.date v) => v.getD ""
  | some (.title parts) => String.join parts
  | _ => ""

/-- `_get_leader_name`: the first title-typed property's joined text. -/
def _get_leader_name (page : Page) : String :=
  match page.properties.find? (fun p => match p.2 with | .title _ => true | _ => false) with
  | some (_, .title parts) => String.join parts
  | _ => ""

/-- `_get_leader_email`: the `Email` property, stripped and lower-cased,
from an email- or rich_text-typed property. -/
def _get_leader_email (page : Page) : String :=
  match getProp page "Email" with
  | some (.email addr) => pyLower (pyStrip (addr.getD ""))
  | some (.richText parts) => pyLower (pyStrip (String.join parts))
  | _ => ""

/-- `_get_region`. -/
def _get_region (page : Page) : String := _get_property_value page "Region"

def OB_COMPLIANCE_STATUS_PROPERTY : String := "Compliance Status"

def OB_SLACK_INVITE_PROPERTY : String := "Invite to Slack Sent- Philippines Team"

def OB_GUSTO_PROPERTY : String := "Added to Management Tool - Philippines Team"

def OB_WORKSHOP_SLACK_PROPERTY : String := "Added to Workshop Slack Channel- Philippines Team"

def OB_LESSON_PLAN_PROPERTY : String := "Lesson Plan Sent - Philippines Team"

def OB_ONBOARDING_EMAIL_PROPERTY : String := "Onboarding Email Sent?"

def OB_TRAINING_STATUS_PROPERTY : String := "Training Status"

def OB_TRAINING_OUTCOME_PROPERTY : String := "Training Outcome"

/-- `config.OB_DONE_VALUES`. -/
def OB_DONE_VALUES : List String :=
  ["Done", "Yes", "Sent", "Approved", "Complete", "Completed", "Added", "Cleared"]

/-- `config.OB_ACCESS_FIELDS`: the four access fields checked for
`Onboarding Setup → Training In Progress`. -/
def OB_ACCESS_FIELDS : List String :=
  [OB_SLACK_INVITE_PROPERTY, OB_WORKSHOP_SLACK_PROPERTY, OB_LESSON_PLAN_PROPERTY,
   OB_ONBOARDING_EMAIL_PROPERTY]

/-- `config.TRAINING_RECENCY_DAYS` (default). -/
def TRAINING_RECENCY_DAYS : Nat := 90

/-- `_is_task_complete`. -/
def _is_task_complete (value : String) : Bool := (pyStrip value) ∈ OB_DONE_VALUES

/-- `_compliance_started`. -/
def _compliance_started (page : Page) : Bool :=
  let val := pyStrip (_get_property_value page OB_COMPLIANCE_STATUS_PROPERTY)
  ¬(val = "Not Sent" ∨ val = "")

/-- `_all_access_complete`. -/
def _all_access_complete (page : Page) : Bool :=
  OB_ACCESS_FIELDS.all (fun field => _is_task_complete (_get_property_value page field))

/-- `_REBOOK_SIGNAL`. -/
def REBOOK_SIGNAL : String := "_rebook"

/-- The truthiness of the `org_uri` argument (`None` and `""` are falsy). -/
def orgUriTruthy : Option String → Bool
  | none => false
  | some u => u ≠ ""

/-- `_check_transition`: the ordered `if/elif` transition evaluator.
`recent` stands in for `calendly_sync.is_training_recent(org_uri, email)`,
returning the recency flag and the pre-formatted last-training date (the
external Calendly lookup is an opaque collaborator); it is consulted only
for a returning leader with a truthy `org_uri` and a non-empty email. -/
def _check_transition (recent : String → String → Bool × Option String)
    (orgUri : Option String) (page : Page) : Option (String × String) :=
  let status := _get_property_value page "Readiness Status"
  if status = "Matched" then
    let complianceVal := _get_property_value page OB_COMPLIANCE_STATUS_PROPERTY
    if _is_task_complete complianceVal then
      some ("Onboarding Setup", "Background check cleared — ready for access setup.")
    else if _compliance_started page then
      some ("Background Check Pending", "Compliance check has been initiated.")
    else none
  else if status = "Background Check Pending" then
    let complianceVal := _get_property_value page OB_COMPLIANCE_STATUS_PROPERTY
    if _is_task_complete complianceVal then
      some ("Onboarding Setup", "Background check cleared — ready for access setup.")
    else none
  else if status = "Onboarding Setup" then
    if _all_access_complete page then
      let trainingVal := _get_property_value page OB_TRAINING_STATUS_PROPERTY
      if _is_task_complete trainingVal then
        some ("ACTIVE", "Returning leader — all access + training already complete.")
      else
        let returningVal := _get_property_value page "Returning Leader?"
        if returningVal = "Yes" ∧ orgUriTruthy orgUri then
          let email := _get_leader_email page
          if email ≠ "" then
            let res := recent (orgUri.getD "") email
            if res.1 then
              some ("ACTIVE", "Returning leader — trained " ++ res.2.getD "recently" ++
                " (within " ++ toString TRAINING_RECENCY_DAYS ++ " days).")
            else
              some ("Training In Progress",
                "All onboarding access granted — waiting on training.")
          else
            some ("Training In Progress", "All onboarding access granted — waiting on training.")
        else
          some ("Training In Progress", "All onboarding access granted — waiting on training.")
    else none
  else if status = "Training In Progress" then
    let outcome := _get_property_value page OB_TRAINING_OUTCOME_PROPERTY
    if outcome = "Pass" then
      some ("ACTIVE", "Training outcome: Pass — leader is ready.")
    else if outcome = "Fail 2" ∨ outcome = "No-Show" then
      some ("Needs Review", "Training outcome: " ++ outcome ++ " — manual review required.")
    else if outcome = "Fail 1" then
      some (REBOOK_SIGNAL, "Training outcome: Fail 1 — rebooking training.")
    else
      let trainingVal := _get_property_value page OB_TRAINING_STATUS_PROPERTY
      if _is_task_complete trainingVal ∧ outcome = "" then
        some ("ACTIVE", "Training complete — please set up Gusto for this leader.")
      else none
  else none

/-- The §4.5 transition table of the specification, target stages only,
written from the spec's words for comparison with `_check_transition`:
ordered guards per current status, the six known statuses only, the rebook
signal for `Fail 1`, and no transition when no guard holds. -/
def specTransitionTarget (page : Page) : Option String :=
  let status := _get_property_value page "Readiness Status"
  if status = "Matched" then
    if _is_task_complete (_get_property_value page OB_COMPLIANCE_STATUS_PROPERTY) then
      some "Onboarding Setup"
    else if _compliance_started page then some "Background Check Pending"
    else none
  else if status = "Background Check Pending" then
    if _is_task_complete (_get_property_value page OB_COMPLIANCE_STATUS_PROPERTY) then
      some "Onboarding Setup"
    else none
  else if status = "Onboarding Setup" then
    if _all_access_complete page then
      if _is_task_complete (_get_property_value page OB_TRAINING_STATUS_PROPERTY) then
        some "ACTIVE"
      else some "Training In Progress"
    else none
  else if status = "Training In Progress" then
    let outcome := _get_property_value page OB_TRAINING_OUTCOME_PROPERTY
    if outcome = "Pass" then some "ACTIVE"
    else if outcome = "Fail 2" ∨ outcome = "No-Show" then some "Needs Review"
    else if outcome = "Fail 1" then some REBOOK_SIGNAL
    else if _is_task_complete (_get_property_value page OB_TRAINING_STATUS_PROPERTY) ∧
        outcome = "" then some "ACTIVE"
    else none
  else none

/-! ### `_process_one_transition`: state, effects, dedup keys -/

/-- One externally visible action of `_process_one_transition` (live mode).
Notion patches, the rebook email, Slack posts and the stage-entry hook
bundle (`_run_transition_hooks`) are recorded as values; the Ops-Hub cell
recolouring is recorded as one `syncCellColors` action (the per-cell Sheets
calls are display I/O on the opaque spreadsheet collaborator). -/
inductive Effect where
  | patchClearProps (pageId : String) (props : List String)
  | patchReadiness (pageId : String) (newStage : String)
  | rebookEmail (name email : String)
  | slackMissingEmail (name stage : String)
  | slackRebookAlert (name : String)
  | slackPipelineUpdate (name newStage : String)
  | syncCellColors (name newStage : String)
  | runHooks (pageId newStage : String)
  deriving DecidableEq

/-- `_STAGE_COLOR_MAP` has entries for exactly these two stages. -/
def stageHasColor (stage : String) : Bool :=
  stage = "Background Check Pending" ∨ stage = "Onboarding Setup"

/-- The digest-state JSON map, seen through the truthiness of
`state.get(key)`; the pipeline code only ever writes `True`. -/
def setKey (state : String → Bool) (key : String) : String → Bool :=
  fun k => if k = key then true else state k

/-- Result of one `_process_one_transition` call: the updated state map,
the external actions performed in order, and the returned boolean (`True`
only for a completed stage advance, enabling fast-advance). -/
structure POTResult where
  state : String → Bool
  effects : List Effect
  advanced : Bool

/-- `_process_one_transition` (live path, `sheet_data`/`creds` presence
abstracted to the two booleans; `patchOk` is the success of the
`_patch_readiness_status` HTTP call).  Mirrors the source order: empty
name; missing-email guard for the three active stages (alert once via
`missing_email_{page_id}`); transition evaluation; `Fail 1` rebook (clear
the three trainer fields, optional rebook email, alert, once via
`rebook_{page_id}`, returns `False`); normal advance (once via
`pipeline_{page_id}_{new_stage}`: readiness patch — aborting if it fails —
cell-colour sync when the stage has a colour, pipeline-update post, stage
hooks, key set, returns `True`).  In dry-run everything prints instead,
but the same dedup keys are set and the same boolean is returned. -/
def _process_one_transition (recent : String → String → Bool × Option String)
    (patchOk : String → String → Bool) (orgUri : Option String) (dryRun : Bool)
    (hasSheetData : Bool) (hasCreds : Bool) (page : Page)
    (state : String → Bool) : POTResult :=
  let pageId := page.id
  let name := _get_leader_name page
  if name = "" then ⟨state, [], false⟩
  else
    let currentStage := _get_property_value page "Readiness Status"
    if (currentStage = "Background Check Pending" ∨ currentStage = "Onboarding Setup" ∨
        currentStage = "Training In Progress") ∧ _get_leader_email page = "" then
      let missingKey := "missing_email_" ++ pageId
      if state missingKey then ⟨state, [], false⟩
      else
        ⟨setKey state missingKey,
         if dryRun then [] else [.slackMissingEmail name currentStage], false⟩
    else
      match _check_transition recent orgUri page with
      | none => ⟨state, [], false⟩
      | some (newStage, _reason) =>
        if newStage = REBOOK_SIGNAL then
          let rebookKey := "rebook_" ++ pageId
          if state rebookKey then ⟨state, [], false⟩
          else
            let email := _get_leader_email page
            ⟨setKey state rebookKey,
             if dryRun then [] else
               [.patchClearProps pageId
                  ["Trainer Assigned", OB_TRAINING_STATUS_PROPERTY,
                   OB_TRAINING_OUTCOME_PROPERTY]] ++
               (if email ≠ "" then [.rebookEmail name email] else []) ++
               [.slackRebookAlert name],
             false⟩
        else
          let pipelineKey := "pipeline_" ++ pageId ++ "_" ++ newStage
          if state pipelineKey then ⟨state, [], false⟩
          else if dryRun then ⟨setKey state pipelineKey, [], true⟩
          else if ¬ patchOk pageId newStage then
            ⟨state, [.patchReadiness pageId newStage], false⟩
          else
            ⟨setKey state pipelineKey,
             [.patchReadiness pageId newStage] ++
             (if stageHasColor newStage ∧ hasSheetData ∧ hasCreds then
               [.syncCellColors name newStage] else []) ++
             [.slackPipelineUpdate name newStage] ++
             [.runHooks pageId newStage],
             true⟩

/-- Effects of the missing-email guard. -/
def isMissingEmailAlert : Effect → Bool
  | .slackMissingEmail _ _ => true
  | _ => false

/-! ### Concrete witness data -/

/-- A recency oracle standing for a Calendly lookup that finds nothing. -/
def recentNone : String → String → Bool × Option String := fun _ _ => (false, none)

/-- A leader card in stage `Matched` with compliance done and a stale
`Fail 1` training outcome. -/
def pageFail1Matched : Page :=
  ⟨"pg-f1m",
   [("Name", .title ["Jo Keller"]),
    ("Readiness Status", .select (some "Matched")),
    ("Compliance Status", .select (some "Done")),
    ("Training Outcome", .select (some "Fail 1")),
    ("Email", .email (some "jo@example.com"))]⟩

/-- A readiness patch that always succeeds. -/
def patchTrue : String → String → Bool := fun _ _ => true

/-- An empty digest-state map (no key truthy). -/
def stateEmpty : String → Bool := fun _ => false

/-- A leader card in stage `Matched` whose compliance has been sent. -/
def pageCompliancePending : Page :=
  ⟨"pg-cp",
   [("Name", .title ["Sam Poe"]),
    ("Readiness Status", .select (some "Matched")),
    ("Compliance Status", .select (some "Pending")),
    ("Email", .email (some "sam@example.com"))]⟩

/-- The state map with `pageCompliancePending`'s pending transition key set. -/
def stateBcpSeen : String → Bool :=
  fun k => k = "pipeline_pg-cp_Background Check Pending"

/-- A leader card in an active stage with no resolvable email. -/
def pageNoEmail : Page :=
  ⟨"pg-ne",
   [("Name", .title ["Kim Ode"]),
    ("Readiness Status", .select (some "Background Check Pending")),
    ("Compliance Status", .select (some "Pending"))]⟩

/-- A leader card in training whose outcome is `Fail 1`. -/
def pageFail1Training : Page :=
  ⟨"pg-f1t",
   [("Name", .title ["Lee Park"]),
    ("Readiness Status", .select (some "Training In Progress")),
    ("Training Outcome", .select (some "Fail 1")),
    ("Email", .email (some "lee@example.com"))]⟩

/-! ## Theorems

### String-normalisation lemmas and claim C10 -/

theorem charOfNat_toNat (n : Nat) (h : n < 55296) : (Char.ofNat n).toNat = n := by
  unfold Char.ofNat
  split
  · next hh => simp only [Char.ofNatAux, Char.toNat, UInt32.toNat]; rfl
  · next hh => exact absurd (Or.inl h) hh

theorem pyLowerChar_toNat (c : Char) (h : 65 ≤ c.toNat ∧ c.toNat ≤ 90) :
    (pyLowerChar c).toNat = c.toNat + 32 := by
  simp only [pyLowerChar, if_pos h]
  exact charOfNat_toNat _ (by omega)

theorem pyLowerChar_of_not (c : Char) (h : ¬(65 ≤ c.toNat ∧ c.toNat ≤ 90)) :
    pyLowerChar c = c := by
  simp only [pyLowerChar, if_neg h]

theorem pyWhitespace_pyLowerChar (c : Char) : pyWhitespace (pyLowerChar c) = pyWhitespace c := by
  by_cases h : 65 ≤ c.toNat ∧ c.toNat ≤ 90
  · have h2 := pyLowerChar_toNat c h
    have hl : pyWhitespace (pyLowerChar c) = false := by
      simp only [pyWhitespace, h2]
      simp only [Bool.or_eq_false_iff, decide_eq_false_iff_not]
      omega
    have hr : pyWhitespace c = false := by
      simp only [pyWhitespace]
      simp only [Bool.or_eq_false_iff, decide_eq_false_iff_not]
      omega
    rw [hl, hr]
  · rw [pyLowerChar_of_not c h]

theorem pyLowerChar_idem (c : Char) : pyLowerChar (pyLowerChar c) = pyLowerChar c := by
  by_cases h : 65 ≤ c.toNat ∧ c.toNat ≤ 90
  · have h2 := pyLowerChar_toNat c h
    exact pyLowerChar_of_not _ (by omega)
  · rw [pyLowerChar_of_not c h, pyLowerChar_of_not c h]

theorem dropWhile_head_false {p : Char → Bool} {l : List Char} {a : Char} {t : List Char}
    (h : l.dropWhile p = a :: t) : p a = false := by
  induction l with
  | nil => simp at h
  | cons x xs ih =>
    rw [List.dropWhile_cons] at h
    split at h
    · exact ih h
    · next hx => cases h; simpa using hx

theorem dropWhile_noop {p : Char → Bool} {l : List Char}
    (h : ∀ a t, l = a :: t → p a = false) : l.dropWhile p = l := by
  cases l with
  | nil => rfl
  | cons x xs => rw [List.dropWhile_cons, h x xs rfl]; simp

theorem dropWhile_getLastQ {p : Char → Bool} {l : List Char}
    (h : l.dropWhile p ≠ []) : (l.dropWhile p).getLast? = l.getLast? := by
  conv_rhs => rw [← List.takeWhile_append_dropWhile p l]
  rw [List.getLast?_append]
  cases hq : (l.dropWhile p).getLast? with
  | none => exact absurd (List.getLast?_eq_none_iff.mp hq) h
  | some a => simp [Option.or]

theorem stripChars_idem (l : List Char) : stripChars (stripChars l) = stripChars l := by
  unfold stripChars
  set d := l.dropWhile pyWhitespace with hd
  set q := d.reverse.dropWhile pyWhitespace with hq
  have head_q : ∀ a t, q = a :: t → pyWhitespace a = false := by
    intro a t hat
    exact dropWhile_head_false (hq ▸ hat)
  have head_qrev : ∀ a t, q.reverse = a :: t → pyWhitespace a = false := by
    intro a t hat
    have hqne : q ≠ [] := by intro h0; rw [h0] at hat; simp at hat
    have h1 : q.reverse.head? = some a := by rw [hat]; rfl
    rw [List.head?_reverse] at h1
    have hdne : d ≠ [] := by
      intro h0
      apply hqne
      rw [hq, h0]
      rfl
    have h2 : q.getLast? = d.reverse.getLast? := dropWhile_getLastQ hqne
    rw [List.getLast?_reverse] at h2
    obtain ⟨b, bs, hbs⟩ := List.exists_cons_of_ne_nil hdne
    have h5 : pyWhitespace b = false := dropWhile_head_false (hd ▸ hbs)
    have h6 : d.head? = some b := by rw [hbs]; rfl
    rw [h2, h6] at h1
    cases h1
    exact h5
  have h1 : q.reverse.dropWhile pyWhitespace = q.reverse := dropWhile_noop head_qrev
  rw [h1, List.reverse_reverse, dropWhile_noop head_q]

theorem dropWhile_map_lower (l : List Char) :
    (l.map pyLowerChar).dropWhile pyWhitespace = (l.dropWhile pyWhitespace).map pyLowerChar := by
  rw [List.dropWhile_map]
  have : pyWhitespace ∘ pyLowerChar = pyWhitespace := by
    funext a
    exact pyWhitespace_pyLowerChar a
  rw [this]

theorem stripChars_map_lower (l : List Char) :
    stripChars (l.map pyLowerChar) = (stripChars l).map pyLowerChar := by
  unfold stripChars
  rw [dropWhile_map_lower, ← List.map_reverse, dropWhile_map_lower, ← List.map_reverse]

theorem map_lower_idem (l : List Char) :
    (l.map pyLowerChar).map pyLowerChar = l.map pyLowerChar := by
  rw [List.map_map]
  have : pyLowerChar ∘ pyLowerChar = pyLowerChar := by
    funext a
    exact pyLowerChar_idem a
  rw [this]

/-- The key `loc.strip().lower()` computed by `normalize_location` is a fixed
point of the strip-then-lower normalisation. -/
theorem key_stable (s : String) :
    pyLower (pyStrip (pyLower (pyStrip s))) = pyLower (pyStrip s) := by
  show String.mk _ = String.mk _
  simp only [pyLower, pyStrip]
  rw [stripChars_map_lower, stripChars_idem, map_lower_idem]

/-- Every value of the alias table is fixed by `normalize_location`. -/
theorem alias_values_fixed :
    LOCATION_ALIASES.all (fun p => normalize_location p.2 = p.2) = true := by decide

/-- Every value of the alias table is already lowercase with no surrounding
whitespace. -/
theorem alias_values_normalized :
    LOCATION_ALIASES.all (fun p => pyLower (pyStrip p.2) = p.2) = true := by decide

/-- C10: `normalize_location` is idempotent — each alias value is already
lowercase and trimmed, and no alias value maps through the table to a
different key — so applying the function twice equals applying it once, and
moreover both table facts the claim names hold of `LOCATION_ALIASES`. -/
theorem normalize_location_idem :
    (∀ x : String, normalize_location (normalize_location x) = normalize_location x) ∧
    LOCATION_ALIASES.all (fun p => pyLower (pyStrip p.2) = p.2) = true ∧
    LOCATION_ALIASES.all (fun p => normalize_location p.2 = p.2) = true := by
  refine ⟨?_, alias_values_normalized, alias_values_fixed⟩
  intro x
  have hx : normalize_location x =
      (aliasLookup (pyLower (pyStrip x))).getD (pyLower (pyStrip x)) := rfl
  cases h : aliasLookup (pyLower (pyStrip x)) with
  | some v =>
    rw [hx, h, Option.getD_some]
    obtain ⟨p, hp, hpv⟩ :
        ∃ p, LOCATION_ALIASES.find? (fun q => q.1 = pyLower (pyStrip x)) = some p ∧ p.2 = v := by
      unfold aliasLookup at h
      cases hf : LOCATION_ALIASES.find? (fun q => q.1 = pyLower (pyStrip x)) with
      | none => rw [hf] at h; simp at h
      | some p =>
        rw [hf] at h
        simp only [Option.map_some'] at h
        exact ⟨p, rfl, by injection h⟩
    have hmem := List.mem_of_find?_eq_some hp
    have hfix : normalize_location p.2 = p.2 := by
      have := List.all_eq_true.mp alias_values_fixed p hmem
      simpa using this
    rw [hpv] at hfix
    exact hfix
  | none =>
    rw [hx, h, Option.getD_none]
    have hk : normalize_location (pyLower (pyStrip x)) =
        (aliasLookup (pyLower (pyStrip (pyLower (pyStrip x))))).getD
          (pyLower (pyStrip (pyLower (pyStrip x)))) := rfl
    rw [hk, key_stable, h, Option.getD_none]

/-! ### Gap-classifier lemmas and claims C2, C6, C8 -/

theorem dateLt_irrefl (d : PDate) : dateLt d d = false := by
  simp [dateLt]

theorem processRow_reduced (today : PDate) (row : SheetRow)
    (hs : setupCancelled row.setup = false)
    (he : rowExpired today row = false)
    (hr : ¬(pyStrip row.region = "" ∧ pyStrip row.site = "")) :
    processRow today row =
      if rowGrayCount row > 0 ∧ rowNonGray row = [] then none
      else if ¬ rowAllEmpty row ∧ ¬ (¬ rowBackout row = [] ∨ ¬ rowThirdParty row = []) then none
      else some (rowGap row) := by
  unfold processRow
  rw [hs, he]
  simp only [Bool.false_eq_true, if_false]
  rw [if_neg hr]

theorem mem_rowLeaders_one (row : SheetRow) :
    (pyStrip row.leader1, row.cls1) ∈ rowLeaders row := by simp [rowLeaders]

theorem mem_rowLeaders_two (row : SheetRow) :
    (pyStrip row.leader2, row.cls2) ∈ rowLeaders row := by simp [rowLeaders]

theorem mem_rowLeaders_three (row : SheetRow) :
    (pyStrip row.leader3, row.cls3) ∈ rowLeaders row := by simp [rowLeaders]

theorem rowBackout_ne_nil {row : SheetRow} {lc : String × String}
    (hmem : lc ∈ rowLeaders row) (hl : lc.1 ≠ "")
    (hc : lc.2 = "red" ∨ lc.2 = "strikethrough") : rowBackout row ≠ [] := by
  unfold rowBackout
  rw [ne_eq, List.map_eq_nil_iff]
  intro hnil
  rw [List.filter_eq_nil_iff] at hnil
  refine hnil lc hmem ?_
  simp only [decide_eq_true_eq]
  refine ⟨hl, ?_, hc⟩
  rcases hc with hc | hc <;> (rw [hc]; decide)

theorem rowThirdParty_ne_nil {row : SheetRow} {lc : String × String}
    (hmem : lc ∈ rowLeaders row) (hl : lc.1 ≠ "")
    (hc : lc.2 = "scoot") : rowThirdParty row ≠ [] := by
  unfold rowThirdParty
  rw [ne_eq, List.map_eq_nil_iff]
  intro hnil
  rw [List.filter_eq_nil_iff] at hnil
  refine hnil lc hmem ?_
  simp only [decide_eq_true_eq]
  rw [hc]
  exact ⟨hl, by decide, by decide, rfl⟩

theorem rowNonGray_ne_nil {row : SheetRow} {lc : String × String}
    (hmem : lc ∈ rowLeaders row) (hl : lc.1 ≠ "") (hc : lc.2 ≠ "gray") :
    rowNonGray row ≠ [] := by
  unfold rowNonGray
  intro hnil
  rw [List.filter_eq_nil_iff] at hnil
  refine hnil lc hmem ?_
  simp only [decide_eq_true_eq]
  exact ⟨hl, hc⟩

theorem rowAllEmpty_false {row : SheetRow} {lc : String × String}
    (hmem : lc ∈ rowLeaders row) (hl : lc.1 ≠ "") (hc : lc.2 ≠ "gray") :
    rowAllEmpty row = false := by
  rw [← Bool.not_eq_true]
  intro htrue
  rw [rowAllEmpty, List.all_eq_true] at htrue
  have := htrue lc hmem
  simp only [decide_eq_true_eq] at this
  rcases this with h | h
  · exact hl h
  · exact hc h

theorem rowBackout_eq_nil {row : SheetRow}
    (h : ∀ lc ∈ rowLeaders row, ¬(lc.1 ≠ "" ∧ (lc.2 = "red" ∨ lc.2 = "strikethrough"))) :
    rowBackout row = [] := by
  unfold rowBackout
  rw [List.map_eq_nil_iff, List.filter_eq_nil_iff]
  intro lc hmem
  simp only [decide_eq_true_eq]
  intro ⟨hl, _, hc⟩
  exact h lc hmem ⟨hl, hc⟩

theorem rowThirdParty_eq_nil {row : SheetRow}
    (h : ∀ lc ∈ rowLeaders row, ¬(lc.1 ≠ "" ∧ lc.2 = "scoot")) :
    rowThirdParty row = [] := by
  unfold rowThirdParty
  rw [List.map_eq_nil_iff, List.filter_eq_nil_iff]
  intro lc hmem
  simp only [decide_eq_true_eq]
  intro ⟨hl, _, _, hc⟩
  exact h lc hmem ⟨hl, hc⟩

theorem rowGrayCount_pos {row : SheetRow} {lc : String × String}
    (hmem : lc ∈ rowLeaders row) (hl : lc.1 ≠ "") (hc : lc.2 = "gray") :
    rowGrayCount row > 0 := by
  unfold rowGrayCount
  rw [gt_iff_lt, List.length_pos_iff_exists_mem]
  refine ⟨lc, ?_⟩
  rw [List.mem_filter]
  refine ⟨hmem, ?_⟩
  simp only [decide_eq_true_eq]
  exact ⟨hl, hc⟩

theorem processRow_some (today : PDate) (row : SheetRow)
    (hs : setupCancelled row.setup = false)
    (he : rowExpired today row = false)
    (hr : ¬(pyStrip row.region = "" ∧ pyStrip row.site = ""))
    (hA : ¬(rowGrayCount row > 0 ∧ rowNonGray row = []))
    (hB : ¬(¬ rowAllEmpty row ∧ ¬ (¬ rowBackout row = [] ∨ ¬ rowThirdParty row = []))) :
    processRow today row = some (rowGap row) := by
  rw [processRow_reduced today row hs he hr, if_neg hA, if_neg hB]

/-- C2: for a row that passes the Setup/cancel and end-date filters and has a
non-empty region or site, and whose leader cells are each empty or classified
gray: the row is skipped iff it has a filled leader cell and every filled
leader cell is gray; otherwise it yields a gap whose gap type is the `OPEN`
label. -/
theorem open_gap_when_cells_empty_or_gray (today : PDate) (row : SheetRow)
    (hs : setupCancelled row.setup = false)
    (he : rowExpired today row = false)
    (hr : ¬(pyStrip row.region = "" ∧ pyStrip row.site = ""))
    (h1 : pyStrip row.leader1 = "" ∨ row.cls1 = "gray")
    (h2 : pyStrip row.leader2 = "" ∨ row.cls2 = "gray")
    (h3 : pyStrip row.leader3 = "" ∨ row.cls3 = "gray") :
    (processRow today row = none ↔
      ((pyStrip row.leader1 ≠ "" ∨ pyStrip row.leader2 ≠ "" ∨ pyStrip row.leader3 ≠ "") ∧
       (pyStrip row.leader1 ≠ "" → row.cls1 = "gray") ∧
       (pyStrip row.leader2 ≠ "" → row.cls2 = "gray") ∧
       (pyStrip row.leader3 ≠ "" → row.cls3 = "gray"))) ∧
    (∀ g, processRow today row = some g → g.gapType = "OPEN (no leaders)") := by
  have hAll : rowAllEmpty row = true := by
    simp only [rowAllEmpty, rowLeaders, List.all_cons, List.all_nil, Bool.and_true,
      Bool.and_eq_true, decide_eq_true_eq]
    exact ⟨by simpa using h1, by simpa using h2, by simpa using h3⟩
  have hng : rowNonGray row = [] := by
    simp only [rowNonGray, rowLeaders]
    rw [List.filter_eq_nil_iff]
    rintro ⟨l, c⟩ hmem
    simp only [List.mem_cons, List.not_mem_nil, or_false] at hmem
    simp only [decide_eq_true_eq, not_and, not_not]
    rcases hmem with h | h | h <;>
      (cases h
       intro hl
       first
         | exact h1.resolve_left hl
         | exact h2.resolve_left hl
         | exact h3.resolve_left hl)
  have hred : processRow today row =
      if rowGrayCount row > 0 ∧ rowNonGray row = [] then none else some (rowGap row) := by
    rw [processRow_reduced today row hs he hr, hAll]
    simp
  have hgc : rowGrayCount row > 0 ↔
      ((pyStrip row.leader1 ≠ "" ∧ row.cls1 = "gray") ∨
       (pyStrip row.leader2 ≠ "" ∧ row.cls2 = "gray") ∨
       (pyStrip row.leader3 ≠ "" ∧ row.cls3 = "gray")) := by
    simp only [rowGrayCount, rowLeaders]
    rw [gt_iff_lt, List.length_pos_iff_exists_mem]
    constructor
    · rintro ⟨a, ha⟩
      rw [List.mem_filter] at ha
      obtain ⟨hmem, hp⟩ := ha
      simp only [List.mem_cons, List.not_mem_nil, or_false] at hmem
      simp only [decide_eq_true_eq] at hp
      rcases hmem with h | h | h
      · rw [h] at hp
        exact Or.inl hp
      · rw [h] at hp
        exact Or.inr (Or.inl hp)
      · rw [h] at hp
        exact Or.inr (Or.inr hp)
    · intro h
      rcases h with ⟨hl, hc⟩ | ⟨hl, hc⟩ | ⟨hl, hc⟩
      · refine ⟨(pyStrip row.leader1, row.cls1), ?_⟩
        rw [List.mem_filter]
        refine ⟨by simp, ?_⟩
        simp only [decide_eq_true_eq]
        exact ⟨hl, hc⟩
      · refine ⟨(pyStrip row.leader2, row.cls2), ?_⟩
        rw [List.mem_filter]
        refine ⟨by simp, ?_⟩
        simp only [decide_eq_true_eq]
        exact ⟨hl, hc⟩
      · refine ⟨(pyStrip row.leader3, row.cls3), ?_⟩
        rw [List.mem_filter]
        refine ⟨by simp, ?_⟩
        simp only [decide_eq_true_eq]
        exact ⟨hl, hc⟩
  constructor
  · rw [hred]
    constructor
    · intro hnone
      split at hnone
      · next hA =>
        rcases hgc.mp hA.1 with ⟨hl, _⟩ | ⟨hl, _⟩ | ⟨hl, _⟩
        · exact ⟨Or.inl hl, fun hx => h1.resolve_left hx,
            fun hx => h2.resolve_left hx, fun hx => h3.resolve_left hx⟩
        · exact ⟨Or.inr (Or.inl hl), fun hx => h1.resolve_left hx,
            fun hx => h2.resolve_left hx, fun hx => h3.resolve_left hx⟩
        · exact ⟨Or.inr (Or.inr hl), fun hx => h1.resolve_left hx,
            fun hx => h2.resolve_left hx, fun hx => h3.resolve_left hx⟩
      · exact absurd hnone (by simp)
    · rintro ⟨hex, hi1, hi2, hi3⟩
      have hposs : rowGrayCount row > 0 := by
        rcases hex with hl | hl | hl
        · exact hgc.mpr (Or.inl ⟨hl, hi1 hl⟩)
        · exact hgc.mpr (Or.inr (Or.inl ⟨hl, hi2 hl⟩))
        · exact hgc.mpr (Or.inr (Or.inr ⟨hl, hi3 hl⟩))
      rw [if_pos ⟨hposs, hng⟩]
  · intro g hg
    rw [hred] at hg
    split at hg
    · cases hg
    · cases hg
      show rowGapType row = _
      unfold rowGapType
      rw [hAll]
      simp

/-- C6: gap types by fixed priority — all slots empty gives the `OPEN`
label; otherwise any filled red/strikethrough cell gives `BACKOUT` (even if
a scoot cell is also present); otherwise any filled scoot cell gives the
`3RD PARTY` label; and a row with no empty slot and no filled
red/strikethrough/scoot cell yields no gap. -/
theorem gap_type_priority_order (today : PDate) (row : SheetRow)
    (hs : setupCancelled row.setup = false)
    (he : rowExpired today row = false)
    (hr : ¬(pyStrip row.region = "" ∧ pyStrip row.site = "")) :
    ((pyStrip row.leader1 = "" ∧ pyStrip row.leader2 = "" ∧ pyStrip row.leader3 = "") →
      processRow today row = some (rowGap row) ∧ (rowGap row).gapType = "OPEN (no leaders)") ∧
    (((pyStrip row.leader1 ≠ "" ∧ (row.cls1 = "red" ∨ row.cls1 = "strikethrough")) ∨
      (pyStrip row.leader2 ≠ "" ∧ (row.cls2 = "red" ∨ row.cls2 = "strikethrough")) ∨
      (pyStrip row.leader3 ≠ "" ∧ (row.cls3 = "red" ∨ row.cls3 = "strikethrough"))) →
      processRow today row = some (rowGap row) ∧ (rowGap row).gapType = "BACKOUT") ∧
    ((¬ (pyStrip row.leader1 ≠ "" ∧ (row.cls1 = "red" ∨ row.cls1 = "strikethrough")) ∧
      ¬ (pyStrip row.leader2 ≠ "" ∧ (row.cls2 = "red" ∨ row.cls2 = "strikethrough")) ∧
      ¬ (pyStrip row.leader3 ≠ "" ∧ (row.cls3 = "red" ∨ row.cls3 = "strikethrough")) ∧
      ((pyStrip row.leader1 ≠ "" ∧ row.cls1 = "scoot") ∨
       (pyStrip row.leader2 ≠ "" ∧ row.cls2 = "scoot") ∨
       (pyStrip row.leader3 ≠ "" ∧ row.cls3 = "scoot"))) →
      processRow today row = some (rowGap row) ∧ (rowGap row).gapType = "3RD PARTY (Scoot)") ∧
    ((pyStrip row.leader1 ≠ "" ∧ pyStrip row.leader2 ≠ "" ∧ pyStrip row.leader3 ≠ "" ∧
      ¬ row.cls1 ∈ ["red", "strikethrough", "scoot"] ∧
      ¬ row.cls2 ∈ ["red", "strikethrough", "scoot"] ∧
      ¬ row.cls3 ∈ ["red", "strikethrough", "scoot"]) →
      processRow today row = none) := by
  have hmem1 := mem_rowLeaders_one row
  have hmem2 := mem_rowLeaders_two row
  have hmem3 := mem_rowLeaders_three row
  refine ⟨?_, ?_, ?_, ?_⟩
  · rintro ⟨e1, e2, e3⟩
    have hAll : rowAllEmpty row = true := by
      rw [rowAllEmpty, List.all_eq_true]
      rintro lc hmem
      simp only [rowLeaders, List.mem_cons, List.not_mem_nil, or_false] at hmem
      simp only [decide_eq_true_eq]
      rcases hmem with h | h | h <;> (rw [h]; left; assumption)
    have hgc : rowGrayCount row = 0 := by
      rw [rowGrayCount, List.length_eq_zero, List.filter_eq_nil_iff]
      rintro lc hmem
      simp only [rowLeaders, List.mem_cons, List.not_mem_nil, or_false] at hmem
      simp only [decide_eq_true_eq, not_and]
      rcases hmem with h | h | h <;> (rw [h]; intro hx; exact absurd (by assumption) hx)
    have hsome := processRow_some today row hs he hr
      (by rintro ⟨hp, _⟩; omega) (by rintro ⟨hae, _⟩; exact hae hAll)
    refine ⟨hsome, ?_⟩
    show rowGapType row = _
    rw [rowGapType, hAll]
    simp
  · intro hb
    have hbk : rowBackout row ≠ [] := by
      rcases hb with ⟨hl, hc⟩ | ⟨hl, hc⟩ | ⟨hl, hc⟩
      · exact rowBackout_ne_nil hmem1 hl hc
      · exact rowBackout_ne_nil hmem2 hl hc
      · exact rowBackout_ne_nil hmem3 hl hc
    have hae : rowAllEmpty row = false := by
      rcases hb with ⟨hl, hc⟩ | ⟨hl, hc⟩ | ⟨hl, hc⟩
      · exact rowAllEmpty_false hmem1 hl
          (show row.cls1 ≠ "gray" by rcases hc with h | h <;> (rw [h]; decide))
      · exact rowAllEmpty_false hmem2 hl
          (show row.cls2 ≠ "gray" by rcases hc with h | h <;> (rw [h]; decide))
      · exact rowAllEmpty_false hmem3 hl
          (show row.cls3 ≠ "gray" by rcases hc with h | h <;> (rw [h]; decide))
    have hng : rowNonGray row ≠ [] := by
      rcases hb with ⟨hl, hc⟩ | ⟨hl, hc⟩ | ⟨hl, hc⟩
      · exact rowNonGray_ne_nil hmem1 hl
          (show row.cls1 ≠ "gray" by rcases hc with h | h <;> (rw [h]; decide))
      · exact rowNonGray_ne_nil hmem2 hl
          (show row.cls2 ≠ "gray" by rcases hc with h | h <;> (rw [h]; decide))
      · exact rowNonGray_ne_nil hmem3 hl
          (show row.cls3 ≠ "gray" by rcases hc with h | h <;> (rw [h]; decide))
    have hsome := processRow_some today row hs he hr
      (by rintro ⟨_, hn⟩; exact hng hn) (by rintro ⟨_, h2⟩; exact h2 (Or.inl hbk))
    refine ⟨hsome, ?_⟩
    show rowGapType row = _
    rw [rowGapType, hae]
    simp only [Bool.false_eq_true, if_false]
    rw [if_pos hbk]
  · rintro ⟨hn1, hn2, hn3, hsc⟩
    have hbk : rowBackout row = [] := by
      apply rowBackout_eq_nil
      intro lc hmem
      simp only [rowLeaders, List.mem_cons, List.not_mem_nil, or_false] at hmem
      rcases hmem with h | h | h <;> (rw [h]; assumption)
    have htp : rowThirdParty row ≠ [] := by
      rcases hsc with ⟨hl, hc⟩ | ⟨hl, hc⟩ | ⟨hl, hc⟩
      · exact rowThirdParty_ne_nil hmem1 hl hc
      · exact rowThirdParty_ne_nil hmem2 hl hc
      · exact rowThirdParty_ne_nil hmem3 hl hc
    have hae : rowAllEmpty row = false := by
      rcases hsc with ⟨hl, hc⟩ | ⟨hl, hc⟩ | ⟨hl, hc⟩
      · exact rowAllEmpty_false hmem1 hl (show row.cls1 ≠ "gray" by rw [hc]; decide)
      · exact rowAllEmpty_false hmem2 hl (show row.cls2 ≠ "gray" by rw [hc]; decide)
      · exact rowAllEmpty_false hmem3 hl (show row.cls3 ≠ "gray" by rw [hc]; decide)
    have hng : rowNonGray row ≠ [] := by
      rcases hsc with ⟨hl, hc⟩ | ⟨hl, hc⟩ | ⟨hl, hc⟩
      · exact rowNonGray_ne_nil hmem1 hl (show row.cls1 ≠ "gray" by rw [hc]; decide)
      · exact rowNonGray_ne_nil hmem2 hl (show row.cls2 ≠ "gray" by rw [hc]; decide)
      · exact rowNonGray_ne_nil hmem3 hl (show row.cls3 ≠ "gray" by rw [hc]; decide)
    have hsome := processRow_some today row hs he hr
      (by rintro ⟨_, hn⟩; exact hng hn) (by rintro ⟨_, h2⟩; exact h2 (Or.inr htp))
    refine ⟨hsome, ?_⟩
    show rowGapType row = _
    rw [rowGapType, hae]
    simp only [Bool.false_eq_true, if_false]
    rw [if_neg (by simpa using hbk), if_pos htp]
  · rintro ⟨f1, f2, f3, hc1, hc2, hc3⟩
    simp only [List.mem_cons, List.not_mem_nil, or_false, not_or] at hc1 hc2 hc3
    have hbk : rowBackout row = [] := by
      apply rowBackout_eq_nil
      intro lc hmem
      simp only [rowLeaders, List.mem_cons, List.not_mem_nil, or_false] at hmem
      rcases hmem with h | h | h <;>
        (rw [h]; rintro ⟨_, hcc | hcc⟩ <;> simp_all)
    have htp : rowThirdParty row = [] := by
      apply rowThirdParty_eq_nil
      intro lc hmem
      simp only [rowLeaders, List.mem_cons, List.not_mem_nil, or_false] at hmem
      rcases hmem with h | h | h <;> (rw [h]; rintro ⟨_, hcc⟩; simp_all)
    rw [processRow_reduced today row hs he hr]
    by_cases hA : rowGrayCount row > 0 ∧ rowNonGray row = []
    · rw [if_pos hA]
    · rw [if_neg hA]
      have hae : rowAllEmpty row = false := by
        rw [← Bool.not_eq_true]
        intro htrue
        rw [rowAllEmpty, List.all_eq_true] at htrue
        have hg1 := htrue _ hmem1
        have hg2 := htrue _ hmem2
        have hg3 := htrue _ hmem3
        simp only [decide_eq_true_eq] at hg1 hg2 hg3
        have hc1g : row.cls1 = "gray" := hg1.resolve_left f1
        have hc2g : row.cls2 = "gray" := hg2.resolve_left f2
        have hc3g : row.cls3 = "gray" := hg3.resolve_left f3
        apply hA
        constructor
        · exact rowGrayCount_pos hmem1 f1 hc1g
        · apply List.filter_eq_nil_iff.mpr
          intro lc hmem
          simp only [rowLeaders, List.mem_cons, List.not_mem_nil, or_false] at hmem
          simp only [decide_eq_true_eq, not_and]
          rcases hmem with h | h | h <;> (rw [h]; intro _; simp_all)
      rw [if_pos]
      refine ⟨by rw [hae]; simp, ?_⟩
      rw [hbk, htp]
      simp

/-- C8: the end-date filter — a row is dropped for its date exactly when its
end date parses under one of the four formats (tried in order) and is
strictly before today; an end date equal to today is not expired; a strictly
earlier one excludes the row; an unparseable one parses to `none` and never
expires the row. -/
theorem end_date_filter_inclusive_boundary (today : PDate) (row : SheetRow) :
    (rowExpired today row = true ↔
      ∃ d, _parse_date row.endDate = some d ∧ dateLt d today = true) ∧
    (_parse_date row.endDate = some today → rowExpired today row = false) ∧
    (∀ d, _parse_date row.endDate = some d → dateLt d today = true →
      processRow today row = none) ∧
    (_parse_date row.endDate = none → rowExpired today row = false) := by
  refine ⟨?_, ?_, ?_, ?_⟩
  · unfold rowExpired
    cases h : _parse_date row.endDate with
    | none => simp
    | some d => simp [h]
  · intro h
    unfold rowExpired
    rw [h]
    exact dateLt_irrefl today
  · intro d hp hlt
    unfold processRow
    have hexp : rowExpired today row = true := by
      unfold rowExpired
      rw [hp]
      exact hlt
    rw [hexp]
    by_cases hsc : setupCancelled row.setup <;> simp [hsc]
  · intro h
    unfold rowExpired
    rw [h]

theorem open_gap_when_cells_empty_or_gray_witness :
    processRow ⟨2025, 11, 3⟩ rowAllGray = none :=
  ((open_gap_when_cells_empty_or_gray ⟨2025, 11, 3⟩ rowAllGray (by decide) (by decide)
    (by decide) (by decide) (by decide) (by decide)).1).mpr (by decide)

theorem gap_type_priority_order_witness :
    processRow ⟨2025, 11, 3⟩ rowBackoutScoot = some (rowGap rowBackoutScoot) ∧
      (rowGap rowBackoutScoot).gapType = "BACKOUT" :=
  (gap_type_priority_order ⟨2025, 11, 3⟩ rowBackoutScoot (by decide) (by decide)
    (by decide)).2.1 (by decide)

theorem end_date_filter_inclusive_boundary_witness :
    rowExpired ⟨2025, 11, 3⟩ rowAllGray = false ∧
    processRow ⟨2025, 11, 4⟩ rowAllGray = none ∧
    rowExpired ⟨2025, 11, 3⟩ rowUnparseable = false :=
  ⟨(end_date_filter_inclusive_boundary ⟨2025, 11, 3⟩ rowAllGray).2.1 (by decide),
   (end_date_filter_inclusive_boundary ⟨2025, 11, 4⟩ rowAllGray).2.2.1 ⟨2025, 11, 3⟩
     (by decide) (by decide),
   (end_date_filter_inclusive_boundary ⟨2025, 11, 3⟩ rowUnparseable).2.2.2 (by decide)⟩

/-! ### Matcher lemmas and claim C7 -/

theorem buildRegionIndex_go (ws : List Gap) (idx : String → List Gap) (k : String)
    (hk : k ≠ "") :
    (ws.foldl (fun idx ws =>
      if normalize_location ws.region = "" then idx
      else fun k2 => if k2 = normalize_location ws.region then idx k2 ++ [ws] else idx k2) idx) k =
    idx k ++ ws.filter (fun w => normalize_location w.region = k) := by
  induction ws generalizing idx with
  | nil => simp
  | cons w rest ih =>
    rw [List.foldl_cons, ih, List.filter_cons]
    by_cases hkey : normalize_location w.region = ""
    · rw [if_pos hkey]
      have hpred : (decide (normalize_location w.region = k)) = false := by
        simp only [decide_eq_false_iff_not]
        rw [hkey]
        exact fun h => hk h.symm
      rw [hpred]
      simp
    · rw [if_neg hkey]
      by_cases heq : normalize_location w.region = k
      · have h2 : k = normalize_location w.region := heq.symm
        rw [if_pos h2]
        have hpred : (decide (normalize_location w.region = k)) = true := by
          simpa using heq
        rw [hpred]
        simp
      · rw [if_neg (fun h : k = normalize_location w.region => heq h.symm)]
        have hpred : (decide (normalize_location w.region = k)) = false := by
          simpa using heq
        rw [hpred]
        simp

theorem buildRegionIndex_lookup (workshops : List Gap) (k : String) (hk : k ≠ "") :
    buildRegionIndex workshops k =
      workshops.filter (fun w => normalize_location w.region = k) := by
  unfold buildRegionIndex
  rw [buildRegionIndex_go workshops _ k hk]
  simp

theorem buildRegionIndex_empty_go (ws : List Gap) (idx : String → List Gap) :
    (ws.foldl (fun idx ws =>
      if normalize_location ws.region = "" then idx
      else fun k2 => if k2 = normalize_location ws.region then idx k2 ++ [ws] else idx k2) idx) ""
      = idx "" := by
  induction ws generalizing idx with
  | nil => rfl
  | cons w rest ih =>
    rw [List.foldl_cons, ih]
    by_cases hkey : normalize_location w.region = ""
    · rw [if_pos hkey]
    · rw [if_neg hkey]
      rw [if_neg (fun h : "" = normalize_location w.region => hkey h.symm)]

theorem buildRegionIndex_empty (workshops : List Gap) : buildRegionIndex workshops "" = [] := by
  unfold buildRegionIndex
  rw [buildRegionIndex_empty_go]

theorem dedupByKey_mem {l : List Gap} {seen : List String} {x : Gap}
    (h : x ∈ dedupByKey l seen) : x ∈ l := by
  induction l generalizing seen with
  | nil => simp [dedupByKey] at h
  | cons ws rest ih =>
    rw [dedupByKey] at h
    split at h
    · exact List.mem_cons_of_mem _ (ih h)
    · rcases List.mem_cons.mp h with h1 | h1
      · rw [h1]; exact List.mem_cons_self _ _
      · exact List.mem_cons_of_mem _ (ih h1)

theorem dedupByKey_ne_nil {l : List Gap} (h : l ≠ []) : dedupByKey l [] ≠ [] := by
  cases l with
  | nil => exact absurd rfl h
  | cons ws rest =>
    rw [dedupByKey]
    rw [if_neg (by simp)]
    simp

theorem dedupByKey_spec (l : List Gap) (seen : List String) :
    ((dedupByKey l seen).map (fun g => g.workshopKey)).Nodup ∧
    ∀ x ∈ dedupByKey l seen, ¬ x.workshopKey ∈ seen := by
  induction l generalizing seen with
  | nil => simp [dedupByKey]
  | cons ws rest ih =>
    rw [dedupByKey]
    split
    · next hin =>
      exact ⟨(ih seen).1, (ih seen).2⟩
    · next hin =>
      obtain ⟨ihn, ihs⟩ := ih (ws.workshopKey :: seen)
      constructor
      · rw [List.map_cons, List.nodup_cons]
        refine ⟨?_, ihn⟩
        intro hmemk
        rw [List.mem_map] at hmemk
        obtain ⟨y, hy, hyk⟩ := hmemk
        exact (ihs y hy) (by rw [hyk]; exact List.mem_cons_self _ _)
      · intro x hx
        rcases List.mem_cons.mp hx with h1 | h1
        · rw [h1]; exact hin
        · intro hxs
          exact (ihs x h1) (List.mem_cons_of_mem _ hxs)

theorem regionMatched_mem (workshops : List Gap) (c : Candidate) (g : Gap) :
    g ∈ regionMatched (buildRegionIndex workshops) c ↔
      ∃ loc ∈ c.locations, normalize_location loc ≠ "" ∧ g ∈ workshops ∧
        normalize_location g.region = normalize_location loc := by
  unfold regionMatched
  rw [List.mem_flatten]
  constructor
  · rintro ⟨L, hL, hg⟩
    rw [List.mem_map] at hL
    obtain ⟨loc, hloc, hLeq⟩ := hL
    by_cases hk : normalize_location loc = ""
    · rw [← hLeq, hk, buildRegionIndex_empty] at hg
      cases hg
    · rw [← hLeq, buildRegionIndex_lookup workshops _ hk] at hg
      rw [List.mem_filter] at hg
      exact ⟨loc, hloc, hk, hg.1, by simpa using hg.2⟩
  · rintro ⟨loc, hloc, hk, hgw, hgr⟩
    refine ⟨buildRegionIndex workshops (normalize_location loc),
      List.mem_map.mpr ⟨loc, hloc, rfl⟩, ?_⟩
    rw [buildRegionIndex_lookup workshops _ hk, List.mem_filter]
    exact ⟨hgw, by simpa using hgr⟩

theorem matchOne_dedup_shape (c cg : Candidate) (gs : List Gap) (M : List Gap)
    (m : List Gap) (hsub : ∀ g ∈ m, g ∈ M)
    (h : (if dedupByKey m [] = [] then none else some (c, dedupByKey m [])) = some (cg, gs)) :
    cg = c ∧ gs ≠ [] ∧ (gs.map (fun g => g.workshopKey)).Nodup ∧ ∀ g ∈ gs, g ∈ M := by
  split at h
  · cases h
  · next hne =>
    injection h with h1
    injection h1 with hcg hgs
    refine ⟨hcg.symm, ?_, ?_, ?_⟩
    · rw [← hgs]
      exact hne
    · rw [← hgs]
      exact (dedupByKey_spec m []).1
    · intro g hg
      rw [← hgs] at hg
      exact hsub g (dedupByKey_mem hg)

/-- C7: the day-availability filter — a form candidate with declared
weekdays gets only gaps on those weekdays unless the filter would leave
none, in which case the whole region-matched set (deduplicated) is used; a
candidate whose source is not the form (or with no declared days) is never
day-filtered; a candidate with at least one region-matched gap is never
dropped by the day filter; every returned list is non-empty, deduplicated
by workshop key and drawn from the region-matched gaps, which are exactly
the workshops whose normalised region matches one of the candidate's
normalised locations. -/
theorem day_filter_fallback (workshops : List Gap) (c : Candidate) :
    (c.source = "form" → c.availableDays ≠ [] →
      (dayFiltered c (regionMatched (buildRegionIndex workshops) c) ≠ [] →
        matchOne (buildRegionIndex workshops) c =
          some (c, dedupByKey (dayFiltered c (regionMatched (buildRegionIndex workshops) c)) []) ∧
        ∀ g ∈ dedupByKey (dayFiltered c (regionMatched (buildRegionIndex workshops) c)) [],
          pyCapitalize (pyStrip g.day) ∈ c.availableDays) ∧
      (dayFiltered c (regionMatched (buildRegionIndex workshops) c) = [] →
        matchOne (buildRegionIndex workshops) c =
          (if dedupByKey (regionMatched (buildRegionIndex workshops) c) [] = [] then none
           else some (c, dedupByKey (regionMatched (buildRegionIndex workshops) c) [])))) ∧
    (c.source ≠ "form" ∨ c.availableDays = [] →
      matchOne (buildRegionIndex workshops) c =
        (if dedupByKey (regionMatched (buildRegionIndex workshops) c) [] = [] then none
         else some (c, dedupByKey (regionMatched (buildRegionIndex workshops) c) []))) ∧
    (regionMatched (buildRegionIndex workshops) c ≠ [] →
      matchOne (buildRegionIndex workshops) c ≠ none) ∧
    (∀ cg gs, matchOne (buildRegionIndex workshops) c = some (cg, gs) →
      cg = c ∧ gs ≠ [] ∧ (gs.map (fun g => g.workshopKey)).Nodup ∧
      ∀ g ∈ gs, g ∈ regionMatched (buildRegionIndex workshops) c) ∧
    (∀ g, g ∈ regionMatched (buildRegionIndex workshops) c ↔
      ∃ loc ∈ c.locations, normalize_location loc ≠ "" ∧ g ∈ workshops ∧
        normalize_location g.region = normalize_location loc) := by
  refine ⟨?_, ?_, ?_, ?_, regionMatched_mem workshops c⟩
  · intro hform hdays
    have hcond : c.availableDays ≠ [] ∧ c.source = "form" := ⟨hdays, hform⟩
    constructor
    · intro hF
      have hd : dedupByKey (dayFiltered c (regionMatched (buildRegionIndex workshops) c)) []
          ≠ [] := dedupByKey_ne_nil hF
      constructor
      · unfold matchOne
        rw [if_pos hcond, if_pos hF, if_neg hd]
      · intro g hg
        have hmem := dedupByKey_mem hg
        unfold dayFiltered at hmem
        rw [List.mem_filter] at hmem
        simpa using hmem.2
    · intro hF
      unfold matchOne
      rw [if_pos hcond,
        if_neg (show ¬(dayFiltered c (regionMatched (buildRegionIndex workshops) c) ≠ [])
          from fun hcon => hcon hF)]
  · intro h
    have hncond : ¬(c.availableDays ≠ [] ∧ c.source = "form") := by
      rintro ⟨hd, hf⟩
      rcases h with h | h
      · exact h hf
      · exact hd h
    unfold matchOne
    rw [if_neg hncond]
  · intro hM
    unfold matchOne
    by_cases hcond : c.availableDays ≠ [] ∧ c.source = "form"
    · rw [if_pos hcond]
      by_cases hF : dayFiltered c (regionMatched (buildRegionIndex workshops) c) ≠ []
      · rw [if_pos hF, if_neg (dedupByKey_ne_nil hF)]
        simp
      · rw [if_neg hF, if_neg (dedupByKey_ne_nil hM)]
        simp
    · rw [if_neg hcond, if_neg (dedupByKey_ne_nil hM)]
      simp
  · intro cg gs h
    unfold matchOne at h
    by_cases hcond : c.availableDays ≠ [] ∧ c.source = "form"
    · rw [if_pos hcond] at h
      by_cases hF : dayFiltered c (regionMatched (buildRegionIndex workshops) c) ≠ []
      · rw [if_pos hF] at h
        refine matchOne_dedup_shape c cg gs _ _ ?_ h
        intro g hg
        unfold dayFiltered at hg
        exact (List.mem_filter.mp hg).1
      · rw [if_neg hF] at h
        exact matchOne_dedup_shape c cg gs _ _ (fun g hg => hg) h
    · rw [if_neg hcond] at h
      exact matchOne_dedup_shape c cg gs _ _ (fun g hg => hg) h

theorem day_filter_fallback_witness :
    matchOne (buildRegionIndex [gapTue, gapMon]) candForm =
      some (candForm,
        dedupByKey (dayFiltered candForm
          (regionMatched (buildRegionIndex [gapTue, gapMon]) candForm)) []) ∧
    ∀ g ∈ dedupByKey (dayFiltered candForm
        (regionMatched (buildRegionIndex [gapTue, gapMon]) candForm)) [],
      pyCapitalize (pyStrip g.day) ∈ candForm.availableDays :=
  ((day_filter_fallback [gapTue, gapMon] candForm).1 rfl (by decide)).1 (by decide)

/-! ### Notification-dedup lemmas and claim C3 -/

theorem dictLookup_set_self (m : List (String × String)) (k v : String) :
    dictLookup (dictSet m k v) k = some v := by
  induction m with
  | nil => simp [dictSet, dictLookup]
  | cons p rest ih =>
    obtain ⟨k2, v2⟩ := p
    rw [dictSet]
    split
    · next hk => simp [dictLookup]
    · next hk =>
      rw [dictLookup, if_neg hk]
      exact ih

theorem dictLookup_set_other (m : List (String × String)) (k k2 v : String) (h : k ≠ k2) :
    dictLookup (dictSet m k2 v) k = dictLookup m k := by
  induction m with
  | nil =>
    rw [dictSet]
    show (if k2 = k then some v else dictLookup [] k) = dictLookup [] k
    rw [if_neg (fun he => h he.symm)]
  | cons p rest ih =>
    obtain ⟨k3, v3⟩ := p
    rw [dictSet]
    split
    · next hk =>
      subst hk
      rw [dictLookup, if_neg (fun he => h he.symm), dictLookup,
        if_neg (fun he : k3 = k => h he.symm)]
    · next hk =>
      rw [dictLookup]
      split
      · next he =>
        rw [dictLookup, if_pos he]
      · next he =>
        rw [dictLookup, if_neg he]
        exact ih

theorem writeKeys_other (cid v k : String) (ws : List Gap) (m : List (String × String))
    (h : ∀ w ∈ ws, notified_key cid w.workshopKey ≠ k) :
    dictLookup (writeKeys cid v ws m) k = dictLookup m k := by
  induction ws generalizing m with
  | nil => rfl
  | cons w rest ih =>
    rw [writeKeys]
    rw [ih _ (fun w2 hw2 => h w2 (List.mem_cons_of_mem _ hw2))]
    exact dictLookup_set_other m k _ v (fun he => h w (List.mem_cons_self _ _) he.symm)

theorem writeKeys_written (cid v k : String) (ws : List Gap) (m : List (String × String))
    (h : ∃ w ∈ ws, notified_key cid w.workshopKey = k) :
    dictLookup (writeKeys cid v ws m) k = some v := by
  induction ws generalizing m with
  | nil => simp at h
  | cons w rest ih =>
    rw [writeKeys]
    by_cases hrest : ∃ w2 ∈ rest, notified_key cid w2.workshopKey = k
    · exact ih _ hrest
    · obtain ⟨w3, hw3, hk3⟩ := h
      have hw : w3 = w := by
        rcases List.mem_cons.mp hw3 with h1 | h1
        · exact h1
        · exact absurd ⟨w3, h1, hk3⟩ hrest
      subst hw
      have hother : ∀ w2 ∈ rest, notified_key cid w2.workshopKey ≠ k := by
        intro w2 hw2 he
        exact hrest ⟨w2, hw2, he⟩
      rw [writeKeys_other cid v k rest _ hother, hk3, dictLookup_set_self]

theorem writeKeys_mono (cid v k : String) (ws : List Gap) (m : List (String × String))
    (h : dictLookup m k ≠ none) :
    dictLookup (writeKeys cid v ws m) k ≠ none := by
  by_cases hw : ∃ w ∈ ws, notified_key cid w.workshopKey = k
  · rw [writeKeys_written cid v k ws m hw]
    simp
  · rw [writeKeys_other cid v k ws m (fun w hmem he => hw ⟨w, hmem, he⟩)]
    exact h

theorem notifyLoop_mono (clock : Nat → String) (ms : List (Candidate × List Gap))
    (notified : List (String × String)) (n : Nat) (k : String)
    (h : dictLookup notified k ≠ none) :
    dictLookup (notifyLoop clock ms notified n).1 k ≠ none := by
  induction ms generalizing notified n with
  | nil => exact h
  | cons p rest ih =>
    obtain ⟨c, gaps⟩ := p
    rw [notifyLoop]
    split
    · exact ih notified n h
    · exact ih _ (n + 1) (writeKeys_mono _ _ _ _ _ h)

theorem notifyLoop_persist (clock : Nat → String) (ms : List (Candidate × List Gap))
    (notified : List (String × String)) (n : Nat) (k v : String)
    (h : dictLookup notified k = some v) :
    dictLookup (notifyLoop clock ms notified n).1 k = some v := by
  induction ms generalizing notified n with
  | nil => exact h
  | cons p rest ih =>
    obtain ⟨c, gaps⟩ := p
    rw [notifyLoop]
    split
    · exact ih notified n h
    · refine ih _ (n + 1) ?_
      rw [writeKeys_other]
      · exact h
      · intro w hw he
        have hpred := (List.mem_filter.mp hw).2
        simp only [decide_eq_true_eq] at hpred
        rw [he] at hpred
        rw [hpred] at h
        cases h

theorem notifyLoop_all_present (clock : Nat → String)
    (ms : List (Candidate × List Gap)) (notified : List (String × String)) (n : Nat) :
    ∀ p ∈ ms, ∀ ws ∈ p.2,
      dictLookup (notifyLoop clock ms notified n).1
        (notified_key p.1.id ws.workshopKey) ≠ none := by
  induction ms generalizing notified n with
  | nil => intro p hp; cases hp
  | cons q rest ih =>
    obtain ⟨c, gaps⟩ := q
    intro p hp ws hws
    rw [notifyLoop]
    split
    · next hunseen =>
      rcases List.mem_cons.mp hp with h1 | h1
      · subst h1
        have hpres : dictLookup notified (notified_key c.id ws.workshopKey) ≠ none := by
          intro hnone
          have hmem : ws ∈ gaps.filter
              (fun ws => dictLookup notified (notified_key c.id ws.workshopKey) = none) := by
            rw [List.mem_filter]
            refine ⟨hws, by simpa using hnone⟩
          rw [hunseen] at hmem
          cases hmem
        exact notifyLoop_mono clock rest notified n _ hpres
      · exact ih notified n p h1 ws hws
    · next hunseen =>
      rcases List.mem_cons.mp hp with h1 | h1
      · subst h1
        by_cases hseen : dictLookup notified (notified_key c.id ws.workshopKey) = none
        · have hmem : ws ∈ gaps.filter
              (fun ws => dictLookup notified (notified_key c.id ws.workshopKey) = none) := by
            rw [List.mem_filter]
            refine ⟨hws, by simpa using hseen⟩
          have hwritten : dictLookup
              (writeKeys c.id (clock n)
                (gaps.filter (fun ws =>
                  dictLookup notified (notified_key c.id ws.workshopKey) = none)) notified)
              (notified_key c.id ws.workshopKey) = some (clock n) :=
            writeKeys_written _ _ _ _ _ ⟨ws, hmem, rfl⟩
          have hper := notifyLoop_persist clock rest _ (n + 1) _ _ hwritten
          rw [hper]
          simp
        · exact notifyLoop_mono clock rest _ (n + 1) _ (writeKeys_mono _ _ _ _ _ hseen)
      · exact ih _ (n + 1) p h1 ws hws

theorem notifyLoop_noop (clock : Nat → String) (ms : List (Candidate × List Gap))
    (notified : List (String × String)) (n : Nat)
    (h : ∀ p ∈ ms, ∀ ws ∈ p.2,
      dictLookup notified (notified_key p.1.id ws.workshopKey) ≠ none) :
    notifyLoop clock ms notified n = (notified, [], n) := by
  induction ms generalizing n with
  | nil => rfl
  | cons q rest ih =>
    obtain ⟨c, gaps⟩ := q
    rw [notifyLoop]
    have hunseen : gaps.filter
        (fun ws => dictLookup notified (notified_key c.id ws.workshopKey) = none) = [] := by
      rw [List.filter_eq_nil_iff]
      intro ws hws
      simp only [decide_eq_true_eq]
      exact h (c, gaps) (List.mem_cons_self _ _) ws hws
    rw [if_pos hunseen]
    exact ih n (fun p hp => h p (List.mem_cons_of_mem _ hp))

theorem notifyLoop_no_dup_message (clock : Nat → String) (ms : List (Candidate × List Gap))
    (notified : List (String × String)) (n : Nat) (cid wk : String)
    (h : dictLookup notified (notified_key cid wk) ≠ none) :
    ∀ msg ∈ (notifyLoop clock ms notified n).2.1,
      ¬(msg.candidateId = cid ∧ wk ∈ msg.workshopKeys) := by
  induction ms generalizing notified n with
  | nil => intro msg hmsg; cases hmsg
  | cons q rest ih =>
    obtain ⟨c, gaps⟩ := q
    intro msg hmsg
    rw [notifyLoop] at hmsg
    split at hmsg
    · exact ih notified n h msg hmsg
    · rcases List.mem_cons.mp hmsg with h1 | h1
      · subst h1
        rintro ⟨hcid, hwk⟩
        simp only at hcid hwk
        rw [List.mem_map] at hwk
        obtain ⟨ws, hws, hwk2⟩ := hwk
        have hpred := (List.mem_filter.mp hws).2
        simp only [decide_eq_true_eq] at hpred
        rw [hcid, hwk2] at hpred
        exact h hpred
      · exact ih _ (n + 1) (writeKeys_mono _ _ _ _ _ h) msg h1

theorem notifyLoop_timestamps (clock : Nat → String) (ms : List (Candidate × List Gap))
    (notified : List (String × String)) (n : Nat) :
    ∀ msg ∈ (notifyLoop clock ms notified n).2.1, ∀ wk ∈ msg.workshopKeys,
      ∃ i, dictLookup (notifyLoop clock ms notified n).1
        (notified_key msg.candidateId wk) = some (clock i) := by
  induction ms generalizing notified n with
  | nil => intro msg hmsg; cases hmsg
  | cons q rest ih =>
    obtain ⟨c, gaps⟩ := q
    intro msg hmsg wk hwk
    rw [notifyLoop] at hmsg ⊢
    split at hmsg
    · next hunseen =>
      rw [if_pos hunseen]
      exact ih notified n msg hmsg wk hwk
    · next hunseen =>
      rw [if_neg hunseen]
      rcases List.mem_cons.mp hmsg with h1 | h1
      · subst h1
        simp only at hwk ⊢
        rw [List.mem_map] at hwk
        obtain ⟨ws, hws, hwk2⟩ := hwk
        refine ⟨n, ?_⟩
        refine notifyLoop_persist clock rest _ (n + 1) _ _ ?_
        rw [← hwk2]
        exact writeKeys_written _ _ _ _ _ ⟨ws, hws, rfl⟩
      · exact ih _ (n + 1) msg h1 wk hwk

/-- C3: notification dedup is idempotent — a pair whose key is already in
the loaded state map is never notified again; re-running the loop on its
own output state sends zero messages and leaves the map and counter
unchanged; and every newly-notified pair is written to the map with the
run's timestamp. -/
theorem notification_dedup_idempotent (clock clock2 : Nat → String)
    (ms : List (Candidate × List Gap)) (notified : List (String × String)) (n n2 : Nat) :
    (∀ cid wk, dictLookup notified (notified_key cid wk) ≠ none →
      ∀ msg ∈ (notifyLoop clock ms notified n).2.1,
        ¬(msg.candidateId = cid ∧ wk ∈ msg.workshopKeys)) ∧
    (notifyLoop clock2 ms (notifyLoop clock ms notified n).1 n2 =
      ((notifyLoop clock ms notified n).1, [], n2)) ∧
    (∀ msg ∈ (notifyLoop clock ms notified n).2.1, ∀ wk ∈ msg.workshopKeys,
      ∃ i, dictLookup (notifyLoop clock ms notified n).1
        (notified_key msg.candidateId wk) = some (clock i)) := by
  refine ⟨?_, ?_, notifyLoop_timestamps clock ms notified n⟩
  · intro cid wk h
    exact notifyLoop_no_dup_message clock ms notified n cid wk h
  · exact notifyLoop_noop clock2 ms _ n2 (notifyLoop_all_present clock ms notified n)

theorem notification_dedup_idempotent_witness :
    (∀ msg ∈ (notifyLoop clockW [(candForm, [gapMon])] notifiedW 0).2.1,
      ¬(msg.candidateId = candForm.id ∧ gapMon.workshopKey ∈ msg.workshopKeys)) ∧
    notifyLoop clockW [(candForm, [gapMon])]
        (notifyLoop clockW [(candForm, [gapMon])] notifiedW 0).1 0 =
      ((notifyLoop clockW [(candForm, [gapMon])] notifiedW 0).1, [], 0) :=
  ⟨(notification_dedup_idempotent clockW clockW [(candForm, [gapMon])] notifiedW 0 0).1
      candForm.id gapMon.workshopKey (by decide),
   (notification_dedup_idempotent clockW clockW [(candForm, [gapMon])] notifiedW 0 0).2.1⟩

/-! ### Pipeline-evaluator claims C1, C4, C5, C9 -/

/-- C1: with no Calendly organization URI supplied, `_check_transition`
returns exactly the target stage of the spec's §4.5 transition table (the
rebook signal for `Fail 1` included), and no transition when no guard — or
an unknown readiness status — applies. -/
theorem check_transition_matches_spec_table (recent : String → String → Bool × Option String) (page : Page) :
    (_check_transition recent none page).map Prod.fst = specTransitionTarget page := by
  simp only [_check_transition, specTransitionTarget]
  by_cases h1 : _get_property_value page "Readiness Status" = "Matched"
  · rw [if_pos h1, if_pos h1]
    by_cases h2 : _is_task_complete (_get_property_value page OB_COMPLIANCE_STATUS_PROPERTY) = true
    · rw [if_pos h2, if_pos h2]
      rfl
    · rw [if_neg h2, if_neg h2]
      by_cases h3 : _compliance_started page = true
      · rw [if_pos h3, if_pos h3]
        rfl
      · rw [if_neg h3, if_neg h3]
        rfl
  · rw [if_neg h1, if_neg h1]
    by_cases h4 : _get_property_value page "Readiness Status" = "Background Check Pending"
    · rw [if_pos h4, if_pos h4]
      by_cases h5 : _is_task_complete (_get_property_value page OB_COMPLIANCE_STATUS_PROPERTY) = true
      · rw [if_pos h5, if_pos h5]
        rfl
      · rw [if_neg h5, if_neg h5]
        rfl
    · rw [if_neg h4, if_neg h4]
      by_cases h6 : _get_property_value page "Readiness Status" = "Onboarding Setup"
      · rw [if_pos h6, if_pos h6]
        by_cases h7 : _all_access_complete page = true
        · rw [if_pos h7, if_pos h7]
          by_cases h8 : _is_task_complete
              (_get_property_value page OB_TRAINING_STATUS_PROPERTY) = true
          · rw [if_pos h8, if_pos h8]
            rfl
          · rw [if_neg h8, if_neg h8]
            have hret : ¬(_get_property_value page "Returning Leader?" = "Yes" ∧
                orgUriTruthy none = true) := by
              rintro ⟨_, hh⟩
              simp [orgUriTruthy] at hh
            rw [if_neg hret]
            rfl
        · rw [if_neg h7, if_neg h7]
          rfl
      · rw [if_neg h6, if_neg h6]
        by_cases h9 : _get_property_value page "Readiness Status" = "Training In Progress"
        · rw [if_pos h9, if_pos h9]
          by_cases h10 : _get_property_value page OB_TRAINING_OUTCOME_PROPERTY = "Pass"
          · rw [if_pos h10, if_pos h10]
            rfl
          · rw [if_neg h10, if_neg h10]
            by_cases h11 : _get_property_value page OB_TRAINING_OUTCOME_PROPERTY = "Fail 2" ∨
                _get_property_value page OB_TRAINING_OUTCOME_PROPERTY = "No-Show"
            · rw [if_pos h11, if_pos h11]
              rfl
            · rw [if_neg h11, if_neg h11]
              by_cases h12 : _get_property_value page OB_TRAINING_OUTCOME_PROPERTY = "Fail 1"
              · rw [if_pos h12, if_pos h12]
                rfl
              · rw [if_neg h12, if_neg h12]
                by_cases h13 : _is_task_complete
                    (_get_property_value page OB_TRAINING_STATUS_PROPERTY) = true ∧
                    _get_property_value page OB_TRAINING_OUTCOME_PROPERTY = ""
                · rw [if_pos h13, if_pos h13]
                  rfl
                · rw [if_neg h13, if_neg h13]
                  rfl
        · rw [if_neg h9, if_neg h9]
          rfl

/-- C4: the `pipeline_{page_id}_{new_stage}` dedup key — when the key for
the stage the evaluator returns is already set (and the missing-email guard
does not intervene), the call changes nothing: no state write, no effects,
`False` returned; and whenever a call reports an advance, the key was unset
and the new state is exactly the old state with that one key set. -/
theorem pipeline_transition_fires_once (recent : String → String → Bool × Option String)
    (patchOk : String → String → Bool) (orgUri : Option String) (dryRun : Bool)
    (hasSheetData hasCreds : Bool) (page : Page) (state : String → Bool) :
    (∀ stage reason, _check_transition recent orgUri page = some (stage, reason) →
      stage ≠ REBOOK_SIGNAL →
      state ("pipeline_" ++ page.id ++ "_" ++ stage) = true →
      ¬((_get_property_value page "Readiness Status" = "Background Check Pending" ∨
         _get_property_value page "Readiness Status" = "Onboarding Setup" ∨
         _get_property_value page "Readiness Status" = "Training In Progress") ∧
        _get_leader_email page = "") →
      (_process_one_transition recent patchOk orgUri dryRun hasSheetData hasCreds page state).state
          = state ∧
      (_process_one_transition recent patchOk orgUri dryRun hasSheetData hasCreds page
          state).effects = [] ∧
      (_process_one_transition recent patchOk orgUri dryRun hasSheetData hasCreds page
          state).advanced = false) ∧
    ((_process_one_transition recent patchOk orgUri dryRun hasSheetData hasCreds page
        state).advanced = true →
      ∃ stage reason, _check_transition recent orgUri page = some (stage, reason) ∧
        stage ≠ REBOOK_SIGNAL ∧
        state ("pipeline_" ++ page.id ++ "_" ++ stage) = false ∧
        (_process_one_transition recent patchOk orgUri dryRun hasSheetData hasCreds page
            state).state = setKey state ("pipeline_" ++ page.id ++ "_" ++ stage)) := by
  constructor
  · intro stage reason hchk hreb hkey hguard
    unfold _process_one_transition
    by_cases hname : _get_leader_name page = ""
    · rw [if_pos hname]
      exact ⟨rfl, rfl, rfl⟩
    · rw [if_neg hname, if_neg hguard, hchk]
      simp only
      rw [if_neg hreb, if_pos hkey]
      exact ⟨rfl, rfl, rfl⟩
  · intro hadv
    by_cases hname : _get_leader_name page = ""
    · have heq : _process_one_transition recent patchOk orgUri dryRun hasSheetData hasCreds
          page state = ⟨state, [], false⟩ := by
        unfold _process_one_transition
        rw [if_pos hname]
      rw [heq] at hadv
      cases hadv
    · by_cases hguard : (_get_property_value page "Readiness Status" = "Background Check Pending" ∨
          _get_property_value page "Readiness Status" = "Onboarding Setup" ∨
          _get_property_value page "Readiness Status" = "Training In Progress") ∧
          _get_leader_email page = ""
      · by_cases hmk : state ("missing_email_" ++ page.id) = true
        · have heq : _process_one_transition recent patchOk orgUri dryRun hasSheetData hasCreds
              page state = ⟨state, [], false⟩ := by
            unfold _process_one_transition
            rw [if_neg hname, if_pos hguard, if_pos hmk]
          rw [heq] at hadv
          cases hadv
        · have heq : _process_one_transition recent patchOk orgUri dryRun hasSheetData hasCreds
              page state = ⟨setKey state ("missing_email_" ++ page.id),
                if dryRun = true then [] else
                  [.slackMissingEmail (_get_leader_name page)
                    (_get_property_value page "Readiness Status")], false⟩ := by
            unfold _process_one_transition
            rw [if_neg hname, if_pos hguard, if_neg hmk]
          rw [heq] at hadv
          cases hadv
      · cases hchk : _check_transition recent orgUri page with
        | none =>
          have heq : _process_one_transition recent patchOk orgUri dryRun hasSheetData hasCreds
              page state = ⟨state, [], false⟩ := by
            unfold _process_one_transition
            rw [if_neg hname, if_neg hguard, hchk]
          rw [heq] at hadv
          cases hadv
        | some sr =>
          obtain ⟨stage, reason⟩ := sr
          by_cases hreb : stage = REBOOK_SIGNAL
          · by_cases hrk : state ("rebook_" ++ page.id) = true
            · have heq : _process_one_transition recent patchOk orgUri dryRun hasSheetData
                  hasCreds page state = ⟨state, [], false⟩ := by
                unfold _process_one_transition
                rw [if_neg hname, if_neg hguard, hchk]
                dsimp only
                rw [if_pos hreb, if_pos hrk]
              rw [heq] at hadv
              cases hadv
            · have heq : _process_one_transition recent patchOk orgUri dryRun hasSheetData
                  hasCreds page state = ⟨setKey state ("rebook_" ++ page.id),
                    if dryRun = true then [] else
                      [.patchClearProps page.id
                        ["Trainer Assigned", OB_TRAINING_STATUS_PROPERTY,
                         OB_TRAINING_OUTCOME_PROPERTY]] ++
                      (if _get_leader_email page ≠ "" then
                        [.rebookEmail (_get_leader_name page) (_get_leader_email page)]
                       else []) ++
                      [.slackRebookAlert (_get_leader_name page)], false⟩ := by
                unfold _process_one_transition
                rw [if_neg hname, if_neg hguard, hchk]
                dsimp only
                rw [if_pos hreb, if_neg hrk]
              rw [heq] at hadv
              cases hadv
          · by_cases hpk : state ("pipeline_" ++ page.id ++ "_" ++ stage) = true
            · have heq : _process_one_transition recent patchOk orgUri dryRun hasSheetData
                  hasCreds page state = ⟨state, [], false⟩ := by
                unfold _process_one_transition
                rw [if_neg hname, if_neg hguard, hchk]
                dsimp only
                rw [if_neg hreb, if_pos hpk]
              rw [heq] at hadv
              cases hadv
            · by_cases hdry : dryRun = true
              · have heq : _process_one_transition recent patchOk orgUri dryRun hasSheetData
                    hasCreds page state =
                      ⟨setKey state ("pipeline_" ++ page.id ++ "_" ++ stage), [], true⟩ := by
                  unfold _process_one_transition
                  rw [if_neg hname, if_neg hguard, hchk]
                  dsimp only
                  rw [if_neg hreb, if_neg hpk, if_pos hdry]
                refine ⟨stage, reason, rfl, hreb, by simpa using hpk, ?_⟩
                rw [heq]
              · by_cases hpo : patchOk page.id stage = true
                · have heq : _process_one_transition recent patchOk orgUri dryRun hasSheetData
                      hasCreds page state =
                        ⟨setKey state ("pipeline_" ++ page.id ++ "_" ++ stage),
                         [.patchReadiness page.id stage] ++
                         (if stageHasColor stage ∧ hasSheetData ∧ hasCreds then
                           [.syncCellColors (_get_leader_name page) stage] else []) ++
                         [.slackPipelineUpdate (_get_leader_name page) stage] ++
                         [.runHooks page.id stage], true⟩ := by
                    unfold _process_one_transition
                    rw [if_neg hname, if_neg hguard, hchk]
                    dsimp only
                    rw [if_neg hreb, if_neg hpk, if_neg hdry,
                      if_neg (show ¬¬(patchOk page.id stage = true) from fun hc => hc hpo)]
                  refine ⟨stage, reason, rfl, hreb, by simpa using hpk, ?_⟩
                  rw [heq]
                · have heq : _process_one_transition recent patchOk orgUri dryRun hasSheetData
                      hasCreds page state = ⟨state, [.patchReadiness page.id stage], false⟩ := by
                    unfold _process_one_transition
                    rw [if_neg hname, if_neg hguard, hchk]
                    dsimp only
                    rw [if_neg hreb, if_neg hpk, if_neg hdry,
                      if_pos (show ¬(patchOk page.id stage = true) from hpo)]
                  rw [heq] at hadv
                  cases hadv

/-- C9: the missing-email guard — a record in one of the three active
stages with an empty resolvable email is never advanced (returns `False`,
and the only effect it can produce is the one-time missing-email flag,
fired at most once via `missing_email_{page_id}`), and the missing-email
alert can only ever arise for such a record (records in other stages are
not subject to the guard). -/
theorem missing_email_guard (recent : String → String → Bool × Option String)
    (patchOk : String → String → Bool) (orgUri : Option String) (dryRun : Bool)
    (hasSheetData hasCreds : Bool) (page : Page) (state : String → Bool) :
    ((_get_property_value page "Readiness Status" = "Background Check Pending" ∨
      _get_property_value page "Readiness Status" = "Onboarding Setup" ∨
      _get_property_value page "Readiness Status" = "Training In Progress") →
     _get_leader_email page = "" →
      (_process_one_transition recent patchOk orgUri dryRun hasSheetData hasCreds page
        state).advanced = false ∧
      (_process_one_transition recent patchOk orgUri dryRun hasSheetData hasCreds page
        state).effects.all isMissingEmailAlert = true ∧
      (state ("missing_email_" ++ page.id) = true →
        (_process_one_transition recent patchOk orgUri dryRun hasSheetData hasCreds page
          state).state = state ∧
        (_process_one_transition recent patchOk orgUri dryRun hasSheetData hasCreds page
          state).effects = []) ∧
      (_get_leader_name page ≠ "" → state ("missing_email_" ++ page.id) = false →
        (_process_one_transition recent patchOk orgUri dryRun hasSheetData hasCreds page
          state).state = setKey state ("missing_email_" ++ page.id) ∧
        (_process_one_transition recent patchOk orgUri dryRun hasSheetData hasCreds page
          state).effects = (if dryRun then [] else
            [.slackMissingEmail (_get_leader_name page)
              (_get_property_value page "Readiness Status")]))) ∧
    (∀ e ∈ (_process_one_transition recent patchOk orgUri dryRun hasSheetData hasCreds page
        state).effects, isMissingEmailAlert e = true →
      ((_get_property_value page "Readiness Status" = "Background Check Pending" ∨
        _get_property_value page "Readiness Status" = "Onboarding Setup" ∨
        _get_property_value page "Readiness Status" = "Training In Progress") ∧
       _get_leader_email page = "")) := by
  constructor
  · intro hstage hemail
    by_cases hname : _get_leader_name page = ""
    · have heq : _process_one_transition recent patchOk orgUri dryRun hasSheetData hasCreds
          page state = ⟨state, [], false⟩ := by
        unfold _process_one_transition
        rw [if_pos hname]
      rw [heq]
      exact ⟨rfl, rfl, fun _ => ⟨rfl, rfl⟩, fun hn _ => absurd hname hn⟩
    · have hguard : (_get_property_value page "Readiness Status" = "Background Check Pending" ∨
          _get_property_value page "Readiness Status" = "Onboarding Setup" ∨
          _get_property_value page "Readiness Status" = "Training In Progress") ∧
          _get_leader_email page = "" := ⟨hstage, hemail⟩
      by_cases hmk : state ("missing_email_" ++ page.id) = true
      · have heq : _process_one_transition recent patchOk orgUri dryRun hasSheetData hasCreds
            page state = ⟨state, [], false⟩ := by
          unfold _process_one_transition
          rw [if_neg hname, if_pos hguard, if_pos hmk]
        rw [heq]
        exact ⟨rfl, rfl, fun _ => ⟨rfl, rfl⟩, fun _ hk => absurd hmk (by rw [hk]; simp)⟩
      · have heq : _process_one_transition recent patchOk orgUri dryRun hasSheetData hasCreds
            page state = ⟨setKey state ("missing_email_" ++ page.id),
              if dryRun = true then [] else
                [.slackMissingEmail (_get_leader_name page)
                  (_get_property_value page "Readiness Status")], false⟩ := by
          unfold _process_one_transition
          rw [if_neg hname, if_pos hguard, if_neg hmk]
        rw [heq]
        refine ⟨rfl, ?_, fun hk => absurd hk hmk, fun _ _ => ⟨rfl, ?_⟩⟩
        · by_cases hdry : dryRun = true
          · rw [if_pos hdry]
            rfl
          · rw [if_neg hdry]
            rfl
        · by_cases hdry : dryRun = true
          · rw [if_pos hdry]
          · rw [if_neg hdry]
  · intro e he halert
    by_cases hname : _get_leader_name page = ""
    · have heq : _process_one_transition recent patchOk orgUri dryRun hasSheetData hasCreds
          page state = ⟨state, [], false⟩ := by
        unfold _process_one_transition
        rw [if_pos hname]
      rw [heq] at he
      cases he
    · by_cases hguard : (_get_property_value page "Readiness Status" = "Background Check Pending" ∨
          _get_property_value page "Readiness Status" = "Onboarding Setup" ∨
          _get_property_value page "Readiness Status" = "Training In Progress") ∧
          _get_leader_email page = ""
      · exact hguard
      · exfalso
        cases hchk : _check_transition recent orgUri page with
        | none =>
          have heq : _process_one_transition recent patchOk orgUri dryRun hasSheetData
              hasCreds page state = ⟨state, [], false⟩ := by
            unfold _process_one_transition
            rw [if_neg hname, if_neg hguard, hchk]
          rw [heq] at he
          cases he
        | some sr =>
          obtain ⟨stage, reason⟩ := sr
          by_cases hreb : stage = REBOOK_SIGNAL
          · by_cases hrk : state ("rebook_" ++ page.id) = true
            · have heq : _process_one_transition recent patchOk orgUri dryRun hasSheetData
                  hasCreds page state = ⟨state, [], false⟩ := by
                unfold _process_one_transition
                rw [if_neg hname, if_neg hguard, hchk]
                dsimp only
                rw [if_pos hreb, if_pos hrk]
              rw [heq] at he
              cases he
            · have heq : _process_one_transition recent patchOk orgUri dryRun hasSheetData
                  hasCreds page state = ⟨setKey state ("rebook_" ++ page.id),
                    if dryRun = true then [] else
                      [.patchClearProps page.id
                        ["Trainer Assigned", OB_TRAINING_STATUS_PROPERTY,
                         OB_TRAINING_OUTCOME_PROPERTY]] ++
                      (if _get_leader_email page ≠ "" then
                        [.rebookEmail (_get_leader_name page) (_get_leader_email page)]
                       else []) ++
                      [.slackRebookAlert (_get_leader_name page)], false⟩ := by
                unfold _process_one_transition
                rw [if_neg hname, if_neg hguard, hchk]
                dsimp only
                rw [if_pos hreb, if_neg hrk]
              rw [heq] at he
              dsimp only at he
              by_cases hdry : dryRun = true
              · rw [if_pos hdry] at he
                cases he
              · rw [if_neg hdry] at he
                by_cases hem : _get_leader_email page ≠ ""
                · rw [if_pos hem] at he
                  simp at he
                  rcases he with he | he | he <;>
                    (subst he; simp [isMissingEmailAlert] at halert)
                · rw [if_neg hem] at he
                  simp at he
                  rcases he with he | he <;>
                    (subst he; simp [isMissingEmailAlert] at halert)
          · by_cases hpk : state ("pipeline_" ++ page.id ++ "_" ++ stage) = true
            · have heq : _process_one_transition recent patchOk orgUri dryRun hasSheetData
                  hasCreds page state = ⟨state, [], false⟩ := by
                unfold _process_one_transition
                rw [if_neg hname, if_neg hguard, hchk]
                dsimp only
                rw [if_neg hreb, if_pos hpk]
              rw [heq] at he
              cases he
            · by_cases hdry : dryRun = true
              · have heq : _process_one_transition recent patchOk orgUri dryRun hasSheetData
                    hasCreds page state =
                      ⟨setKey state ("pipeline_" ++ page.id ++ "_" ++ stage), [], true⟩ := by
                  unfold _process_one_transition
                  rw [if_neg hname, if_neg hguard, hchk]
                  dsimp only
                  rw [if_neg hreb, if_neg hpk, if_pos hdry]
                rw [heq] at he
                cases he
              · by_cases hpo : patchOk page.id stage = true
                · have heq : _process_one_transition recent patchOk orgUri dryRun hasSheetData
                      hasCreds page state =
                        ⟨setKey state ("pipeline_" ++ page.id ++ "_" ++ stage),
                         [.patchReadiness page.id stage] ++
                         (if stageHasColor stage ∧ hasSheetData ∧ hasCreds then
                           [.syncCellColors (_get_leader_name page) stage] else []) ++
                         [.slackPipelineUpdate (_get_leader_name page) stage] ++
                         [.runHooks page.id stage], true⟩ := by
                    unfold _process_one_transition
                    rw [if_neg hname, if_neg hguard, hchk]
                    dsimp only
                    rw [if_neg hreb, if_neg hpk, if_neg hdry,
                      if_neg (show ¬¬(patchOk page.id stage = true) from fun hc => hc hpo)]
                  rw [heq] at he
                  dsimp only at he
                  by_cases hcol : stageHasColor stage ∧ hasSheetData = true ∧ hasCreds = true
                  · rw [if_pos hcol] at he
                    simp at he
                    rcases he with he | he | he | he <;>
                      (subst he; simp [isMissingEmailAlert] at halert)
                  · rw [if_neg hcol] at he
                    simp at he
                    rcases he with he | he | he <;>
                      (subst he; simp [isMissingEmailAlert] at halert)
                · have heq : _process_one_transition recent patchOk orgUri dryRun hasSheetData
                      hasCreds page state = ⟨state, [.patchReadiness page.id stage],
                        false⟩ := by
                    unfold _process_one_transition
                    rw [if_neg hname, if_neg hguard, hchk]
                    dsimp only
                    rw [if_neg hreb, if_neg hpk, if_neg hdry,
                      if_pos (show ¬(patchOk page.id stage = true) from hpo)]
                  rw [heq] at he
                  rcases List.mem_singleton.mp he with rfl
                  simp [isMissingEmailAlert] at halert

/-- C5 counterexample: the claim quantifies over every leader record with
`Training Outcome = "Fail 1"`, but a record in stage `Matched` with
completed compliance and that outcome is advanced to `Onboarding Setup` —
the evaluator does not return the rebook signal for it. -/
theorem rebook_requires_training_stage_counterexample :
    _get_property_value pageFail1Matched OB_TRAINING_OUTCOME_PROPERTY = "Fail 1" ∧
    _check_transition recentNone none pageFail1Matched =
      some ("Onboarding Setup", "Background check cleared — ready for access setup.") ∧
    (_check_transition recentNone none pageFail1Matched).map Prod.fst ≠
      some REBOOK_SIGNAL := by decide

/-- C5 (amended: the record is in stage `Training In Progress`): the
evaluator returns the rebook signal rather than a stage; applying it (live,
with a name, a resolvable email and no prior `rebook_{page_id}` flag)
clears exactly Trainer Assigned, Training Status and Training Outcome,
issues no readiness-status patch, and sets exactly the rebook dedup key;
with the flag already set nothing at all happens. -/
theorem rebook_clears_trainer_fields (recent : String → String → Bool × Option String)
    (patchOk : String → String → Bool) (orgUri : Option String)
    (hasSheetData hasCreds : Bool) (page : Page) (state : String → Bool)
    (hstat : _get_property_value page "Readiness Status" = "Training In Progress")
    (hout : _get_property_value page OB_TRAINING_OUTCOME_PROPERTY = "Fail 1") :
    _check_transition recent orgUri page =
      some (REBOOK_SIGNAL, "Training outcome: Fail 1 — rebooking training.") ∧
    (_get_leader_name page ≠ "" → _get_leader_email page ≠ "" →
      (state ("rebook_" ++ page.id) = false →
        (_process_one_transition recent patchOk orgUri false hasSheetData hasCreds page
          state).state = setKey state ("rebook_" ++ page.id) ∧
        (_process_one_transition recent patchOk orgUri false hasSheetData hasCreds page
          state).effects =
          [.patchClearProps page.id
             ["Trainer Assigned", OB_TRAINING_STATUS_PROPERTY, OB_TRAINING_OUTCOME_PROPERTY],
           .rebookEmail (_get_leader_name page) (_get_leader_email page),
           .slackRebookAlert (_get_leader_name page)] ∧
        (_process_one_transition recent patchOk orgUri false hasSheetData hasCreds page
          state).advanced = false ∧
        (∀ e ∈ (_process_one_transition recent patchOk orgUri false hasSheetData hasCreds page
          state).effects, ∀ s, e ≠ .patchReadiness page.id s)) ∧
      (state ("rebook_" ++ page.id) = true →
        (_process_one_transition recent patchOk orgUri false hasSheetData hasCreds page
          state).state = state ∧
        (_process_one_transition recent patchOk orgUri false hasSheetData hasCreds page
          state).effects = [] ∧
        (_process_one_transition recent patchOk orgUri false hasSheetData hasCreds page
          state).advanced = false)) := by
  have hchk : _check_transition recent orgUri page =
      some (REBOOK_SIGNAL, "Training outcome: Fail 1 — rebooking training.") := by
    simp only [_check_transition]
    rw [hstat, hout]
    rw [if_neg (by decide : ¬("Training In Progress" = "Matched")),
      if_neg (by decide : ¬("Training In Progress" = "Background Check Pending")),
      if_neg (by decide : ¬("Training In Progress" = "Onboarding Setup")),
      if_pos (rfl : "Training In Progress" = "Training In Progress"),
      if_neg (by decide : ¬("Fail 1" = "Pass")),
      if_neg (by decide : ¬("Fail 1" = "Fail 2" ∨ "Fail 1" = "No-Show")),
      if_pos (rfl : "Fail 1" = "Fail 1")]
  refine ⟨hchk, ?_⟩
  intro hname hemail
  have hguard : ¬((_get_property_value page "Readiness Status" = "Background Check Pending" ∨
      _get_property_value page "Readiness Status" = "Onboarding Setup" ∨
      _get_property_value page "Readiness Status" = "Training In Progress") ∧
      _get_leader_email page = "") := fun hg => hemail hg.2
  constructor
  · intro hrk
    have heq : _process_one_transition recent patchOk orgUri false hasSheetData hasCreds
        page state = ⟨setKey state ("rebook_" ++ page.id),
          [.patchClearProps page.id
             ["Trainer Assigned", OB_TRAINING_STATUS_PROPERTY, OB_TRAINING_OUTCOME_PROPERTY],
           .rebookEmail (_get_leader_name page) (_get_leader_email page),
           .slackRebookAlert (_get_leader_name page)], false⟩ := by
      unfold _process_one_transition
      rw [if_neg hname, if_neg hguard, hchk]
      dsimp only
      rw [if_pos (rfl : REBOOK_SIGNAL = REBOOK_SIGNAL), if_neg (by rw [hrk]; simp),
        if_neg (by decide : ¬((false : Bool) = true)), if_pos hemail]
      rfl
    rw [heq]
    refine ⟨rfl, rfl, rfl, ?_⟩
    intro e he s
    simp only [List.mem_cons, List.not_mem_nil, or_false] at he
    rcases he with he | he | he <;> (subst he; simp)
  · intro hrk
    have heq : _process_one_transition recent patchOk orgUri false hasSheetData hasCreds
        page state = ⟨state, [], false⟩ := by
      unfold _process_one_transition
      rw [if_neg hname, if_neg hguard, hchk]
      dsimp only
      rw [if_pos (rfl : REBOOK_SIGNAL = REBOOK_SIGNAL), if_pos hrk]
    rw [heq]
    exact ⟨rfl, rfl, rfl⟩

theorem pipeline_transition_fires_once_witness :
    ((_process_one_transition recentNone patchTrue none false false false
        pageCompliancePending stateBcpSeen).state = stateBcpSeen ∧
     (_process_one_transition recentNone patchTrue none false false false
        pageCompliancePending stateBcpSeen).effects = [] ∧
     (_process_one_transition recentNone patchTrue none false false false
        pageCompliancePending stateBcpSeen).advanced = false) ∧
    (∃ stage reason, _check_transition recentNone none pageCompliancePending =
        some (stage, reason) ∧ stage ≠ REBOOK_SIGNAL ∧
      stateEmpty ("pipeline_" ++ pageCompliancePending.id ++ "_" ++ stage) = false ∧
      (_process_one_transition recentNone patchTrue none false false false
        pageCompliancePending stateEmpty).state =
        setKey stateEmpty ("pipeline_" ++ pageCompliancePending.id ++ "_" ++ stage)) :=
  ⟨(pipeline_transition_fires_once recentNone patchTrue none false false false
      pageCompliancePending stateBcpSeen).1
      "Background Check Pending" "Compliance check has been initiated."
      (by decide) (by decide) (by decide) (by decide),
   (pipeline_transition_fires_once recentNone patchTrue none false false false
      pageCompliancePending stateEmpty).2 (by decide)⟩

theorem missing_email_guard_witness :
    (_process_one_transition recentNone patchTrue none false false false pageNoEmail
      stateEmpty).advanced = false ∧
    (_process_one_transition recentNone patchTrue none false false false pageNoEmail
      stateEmpty).effects.all isMissingEmailAlert = true ∧
    (stateEmpty ("missing_email_" ++ pageNoEmail.id) = true →
      (_process_one_transition recentNone patchTrue none false false false pageNoEmail
        stateEmpty).state = stateEmpty ∧
      (_process_one_transition recentNone patchTrue none false false false pageNoEmail
        stateEmpty).effects = []) ∧
    (_get_leader_name pageNoEmail ≠ "" →
      stateEmpty ("missing_email_" ++ pageNoEmail.id) = false →
      (_process_one_transition recentNone patchTrue none false false false pageNoEmail
        stateEmpty).state = setKey stateEmpty ("missing_email_" ++ pageNoEmail.id) ∧
      (_process_one_transition recentNone patchTrue none false false false pageNoEmail
        stateEmpty).effects = (if false then [] else
          [.slackMissingEmail (_get_leader_name pageNoEmail)
            (_get_property_value pageNoEmail "Readiness Status")])) :=
  (missing_email_guard recentNone patchTrue none false false false pageNoEmail
    stateEmpty).1 (Or.inl rfl) rfl

theorem rebook_clears_trainer_fields_witness :
    _check_transition recentNone none pageFail1Training =
      some (REBOOK_SIGNAL, "Training outcome: Fail 1 — rebooking training.") ∧
    ((_process_one_transition recentNone patchTrue none false false false pageFail1Training
       stateEmpty).state = setKey stateEmpty ("rebook_" ++ pageFail1Training.id) ∧
     (_process_one_transition recentNone patchTrue none false false false pageFail1Training
       stateEmpty).effects =
       [.patchClearProps pageFail1Training.id
          ["Trainer Assigned", OB_TRAINING_STATUS_PROPERTY, OB_TRAINING_OUTCOME_PROPERTY],
        .rebookEmail (_get_leader_name pageFail1Training)
          (_get_leader_email pageFail1Training),
        .slackRebookAlert (_get_leader_name pageFail1Training)] ∧
     (_process_one_transition recentNone patchTrue none false false false pageFail1Training
       stateEmpty).advanced = false ∧
     (∀ e ∈ (_process_one_transition recentNone patchTrue none false false false
        pageFail1Training stateEmpty).effects,
        ∀ s, e ≠ .patchReadiness pageFail1Training.id s)) :=
  ⟨(rebook_clears_trainer_fields recentNone patchTrue none false false pageFail1Training
      stateEmpty (by decide) (by decide)).1,
   ((rebook_clears_trainer_fields recentNone patchTrue none false false pageFail1Training
      stateEmpty (by decide) (by decide)).2 (by decide) (by decide)).1 (by decide)⟩

end GapMatcher
